import Mathlib

/-!
Shallow embedding of the balance-reconciliation core of the
inventory-Backend repository: the Sale / Payment / Customer data model
(src/models/Sale.js, the Payment and Customer schemas), the sale
controller (createSale, updateSale, deleteSale), the payment controller
(createPayment, updatePayment) and the customer-list read-time
reconciliation (customerController.getCustomers).

Monetary values are rationals (the source uses JS numbers; every epsilon
comparison in the source is against the literal 0.01, written 1/100
here).  Stores are association lists keyed by ids; a Mongoose `save` is
an upsert on that list followed by the Sale post('save') hook.
-/

namespace InventoryBackend

/-- Math.abs from the source, written with an if so the kernel can reduce it. -/
def jsAbs (x : ℚ) : ℚ := if x < 0 then -x else x

/-- Math.min from the source. -/
def jsMin (a b : ℚ) : ℚ := if a ≤ b then a else b

/-- Payment status enumeration of the Sale schema
(`enum: ['paid', 'partial', 'pending', 'overpaid']`); the source string
'partial' is rendered as the constructor `partialPayment`. -/
inductive PaymentStatus where
  | paid
  | partialPayment
  | pending
  | overpaid
deriving DecidableEq

/-- Sale/Payment record status (`enum: ['completed', 'cancelled', 'refunded']`). -/
inductive SaleStatus where
  | completed
  | cancelled
  | refunded
deriving DecidableEq

/-- Error taxonomy of the controllers: 404 responses are `notFound`,
the 400 responses on a settled or cancelled record are `invalidState`,
the 400 response on a stock shortfall is `insufficientStock`. -/
inductive ApiError where
  | notFound
  | invalidState
  | insufficientStock
deriving DecidableEq

/-- One line item of a sale (`items` subdocument of the Sale schema);
`total` is the computed line total `price * quantity - discount`. -/
structure SaleItem where
  product : Nat
  quantity : ℚ
  price : ℚ
  discount : ℚ
  total : ℚ
deriving DecidableEq

/-- A Sale document (src/models/Sale.js), restricted to the fields the
reconciliation logic reads or writes. -/
structure Sale where
  customer : Nat
  items : List SaleItem
  subtotal : ℚ
  discount : ℚ
  tax : ℚ
  total : ℚ
  paid : ℚ
  balance : ℚ
  paymentStatus : PaymentStatus
  status : SaleStatus
deriving DecidableEq

/-- A requested or recorded payment allocation (`sales` subdocument of
the Payment schema: `{sale, amount}`). -/
structure Alloc where
  sale : Nat
  amount : ℚ
deriving DecidableEq

/-- A Payment document (Payment schema), restricted to the fields the
reconciliation logic reads or writes. -/
structure Payment where
  customer : Nat
  amount : ℚ
  sales : List Alloc
  totalAllocated : ℚ
deriving DecidableEq

/-- Virtual `remainingAmount` of the Payment schema:
`this.amount - this.totalAllocated`. -/
def Payment.remainingAmount (p : Payment) : ℚ := p.amount - p.totalAllocated

/-- A Customer document, restricted to the two incrementally maintained
aggregates. -/
structure Customer where
  outstandingAmount : ℚ
  totalPurchase : ℚ
deriving DecidableEq

/-- A Product document, restricted to `stock.current`. -/
structure Product where
  stockCurrent : ℚ
deriving DecidableEq

/-- Lookup in an association list: the first entry with the given key,
the model of `Model.findById`. -/
def lookupList {α : Type} (l : List (Nat × α)) (k : Nat) : Option α :=
  match l with
  | [] => none
  | p :: rest => if p.1 = k then some p.2 else lookupList rest k

/-- Upsert into an association list, the model of a Mongoose
`document.save()` / `Model.create` write: replace the entries carrying
the key when one exists, prepend otherwise. -/
def setEntry {α : Type} (l : List (Nat × α)) (k : Nat) (v : α) : List (Nat × α) :=
  if l.any (fun p => p.1 = k) then
    l.map (fun p => if p.1 = k then (k, v) else p)
  else (k, v) :: l

/-- In-place update of the entries carrying a key, the model of
`Model.findByIdAndUpdate(id, {$inc: ...})`. -/
def adjustEntry {α : Type} (l : List (Nat × α)) (k : Nat) (f : α → α) : List (Nat × α) :=
  l.map (fun p => if p.1 = k then (p.1, f p.2) else p)

/-- The persistent state the reconciliation engine touches: the four
Mongo collections. -/
structure Store where
  sales : List (Nat × Sale)
  customers : List (Nat × Customer)
  products : List (Nat × Product)
  payments : List (Nat × Payment)
deriving DecidableEq

def lookupSale (st : Store) (k : Nat) : Option Sale := lookupList st.sales k

def lookupCustomer (st : Store) (k : Nat) : Option Customer := lookupList st.customers k

def lookupProduct (st : Store) (k : Nat) : Option Product := lookupList st.products k

def lookupPayment (st : Store) (k : Nat) : Option Payment := lookupList st.payments k

/-- The effect of `$inc: {outstandingAmount: d}` on one customer. -/
def bumpOutstanding (d : ℚ) (c : Customer) : Customer :=
  { c with outstandingAmount := c.outstandingAmount + d }

/-- The effect of `$inc: {totalPurchase: dPur, outstandingAmount: dOut}`
on one customer. -/
def bumpAgg (dPur dOut : ℚ) (c : Customer) : Customer :=
  { c with totalPurchase := c.totalPurchase + dPur, outstandingAmount := c.outstandingAmount + dOut }

/-- The effect of `$inc: {'stock.current': d}` on one product. -/
def bumpStock (d : ℚ) (p : Product) : Product :=
  { p with stockCurrent := p.stockCurrent + d }

/-- Customer.findByIdAndUpdate with `$inc: {outstandingAmount: d}`. -/
def incOutstanding (st : Store) (k : Nat) (d : ℚ) : Store :=
  { st with customers := adjustEntry st.customers k (bumpOutstanding d) }

/-- Customer.findByIdAndUpdate with
`$inc: {totalPurchase: dPur, outstandingAmount: dOut}`. -/
def incCustomerAgg (st : Store) (k : Nat) (dPur dOut : ℚ) : Store :=
  { st with customers := adjustEntry st.customers k (bumpAgg dPur dOut) }

/-- Product.findByIdAndUpdate with `$inc: {'stock.current': d}`. -/
def incStock (st : Store) (k : Nat) (d : ℚ) : Store :=
  { st with products := adjustEntry st.products k (bumpStock d) }

/-- The saleSchema.post('save') hook of src/models/Sale.js: after every
save of a sale whose status is 'completed' and whose balance is strictly
positive, increment the customer's outstandingAmount by the sale's full
current balance. -/
def applySaveHook (st : Store) (s : Sale) : Store :=
  if s.status = SaleStatus.completed ∧ 0 < s.balance then
    incOutstanding st s.customer s.balance
  else st

/-- A `sale.save()` (or `Sale.create`): write the document, then run the
post('save') hook. -/
def saveSale (st : Store) (k : Nat) (s : Sale) : Store :=
  applySaveHook { st with sales := setEntry st.sales k s } s

/-- The payment-status block that appears verbatim in createSale,
updateSale, and in the three allocation loops of the payment controller:
`if (balance < -0.01) overpaid; else if (Math.abs(balance) < 0.01) paid;
else if (paid > 0) partial; else pending`. -/
def paymentStatusOf (balance paid : ℚ) : PaymentStatus :=
  if balance < -(1/100) then PaymentStatus.overpaid
  else if jsAbs balance < 1/100 then PaymentStatus.paid
  else if 0 < paid then PaymentStatus.partialPayment
  else PaymentStatus.pending

/-- An item of the createSale request body before the line total is
computed. -/
structure RawItem where
  product : Nat
  quantity : ℚ
  price : ℚ
  discount : ℚ
deriving DecidableEq

/-- The stock-validation and line-total loop of createSale: for each
item, fail NotFound if the product is missing, fail InsufficientStock if
`product.stock.current < item.quantity`, otherwise compute
`item.total = price * quantity - discount` and accumulate the subtotal. -/
def checkItems (st : Store) : List RawItem → Except ApiError (List SaleItem × ℚ)
  | [] => Except.ok ([], 0)
  | it :: rest =>
    match lookupProduct st it.product with
    | none => Except.error ApiError.notFound
    | some p =>
      if p.stockCurrent < it.quantity then Except.error ApiError.insufficientStock
      else
        match checkItems st rest with
        | Except.error e => Except.error e
        | Except.ok (items, sub) =>
          let t := it.price * it.quantity - it.discount
          Except.ok (⟨it.product, it.quantity, it.price, it.discount, t⟩ :: items, t + sub)

/-- Request body of createSale (fields the balance math reads). -/
structure SaleInput where
  customer : Nat
  items : List RawItem
  discount : ℚ
  tax : ℚ
  paid : ℚ
deriving DecidableEq

/-- The stock decrement loop of createSale. -/
def decStocks (st : Store) : List RawItem → Store
  | [] => st
  | it :: rest => decStocks (incStock st it.product (-it.quantity)) rest

/-- saleController.createSale: validate the customer, validate items and
stock, compute subtotal / total / balance / paymentStatus (the status
from the unsnapped balance, the stored balance snapped to 0 when
`Math.abs(balance) < 0.01`), create the sale (firing the post-save
hook), decrement stock, then apply the explicit customer delta
`$inc {totalPurchase: total, outstandingAmount: sale.balance}`.
`saleId` stands for the generated invoice number. -/
def createSale (st : Store) (inp : SaleInput) (saleId : Nat) :
    Except ApiError (Store × Sale) :=
  match lookupCustomer st inp.customer with
  | none => Except.error ApiError.notFound
  | some _ =>
    match checkItems st inp.items with
    | Except.error e => Except.error e
    | Except.ok (items, subtotal) =>
      let total := subtotal - inp.discount + inp.tax
      let balance := total - inp.paid
      let sale : Sale :=
        { customer := inp.customer
          items := items
          subtotal := subtotal
          discount := inp.discount
          tax := inp.tax
          total := total
          paid := inp.paid
          balance := if jsAbs balance < 1/100 then 0 else balance
          paymentStatus := paymentStatusOf balance inp.paid
          status := SaleStatus.completed }
      let st1 := saveSale st saleId sale
      let st2 := decStocks st1 inp.items
      let st3 := incCustomerAgg st2 inp.customer total sale.balance
      Except.ok (st3, sale)

/-- The sale-level effect of applying an allocation of amount d, the
shared loop body of createPayment and of updatePayment's reapply phase:
`paid += d; balance -= d`, then the payment-status block on the updated
balance and paid. -/
def appliedSale (s : Sale) (d : ℚ) : Sale :=
  { s with paid := s.paid + d, balance := s.balance - d,
           paymentStatus := paymentStatusOf (s.balance - d) (s.paid + d) }

/-- The sale-level effect of reversing an allocation of amount d, the
loop body of updatePayment's reversal phase: `paid -= d; balance += d`,
then the payment-status block. -/
def reversedSale (s : Sale) (d : ℚ) : Sale :=
  { s with paid := s.paid - d, balance := s.balance + d,
           paymentStatus := paymentStatusOf (s.balance + d) (s.paid - d) }

/-- One iteration of the createPayment allocation loop: load the sale
(NotFound when missing), fail InvalidState when its balance is ≤ 0,
clamp the applied amount to `Math.min(requested, balance)`, record the
clamped amount, apply `paid += applied; balance -= applied`, recompute
the payment status, save the sale (firing the post-save hook), then
`$inc` the sale's customer's outstandingAmount by the balance change. -/
def allocStep (st : Store) (a : Alloc) : Except ApiError (Store × Alloc) :=
  match lookupSale st a.sale with
  | none => Except.error ApiError.notFound
  | some sale =>
    if sale.balance ≤ 0 then Except.error ApiError.invalidState
    else
      let allocationAmount := jsMin a.amount sale.balance
      let oldBalance := sale.balance
      let sale2 : Sale := appliedSale sale allocationAmount
      let st1 := saveSale st a.sale sale2
      let st2 := incOutstanding st1 sale.customer (sale2.balance - oldBalance)
      Except.ok (st2, ⟨a.sale, allocationAmount⟩)

/-- The createPayment allocation loop over the requested list, in the
caller's order, threading the store and accumulating the recorded
allocations and `totalAllocated`. -/
def processAllocs (st : Store) : List Alloc → Except ApiError (Store × List Alloc × ℚ)
  | [] => Except.ok (st, [], 0)
  | a :: rest =>
    match allocStep st a with
    | Except.error e => Except.error e
    | Except.ok (st1, r) =>
      match processAllocs st1 rest with
      | Except.error e => Except.error e
      | Except.ok (st2, rs, tot) => Except.ok (st2, r :: rs, r.amount + tot)

/-- paymentController.createPayment: validate the customer, run the
allocation loop, then create the Payment carrying the recorded (clamped)
allocations and their sum as `totalAllocated`.  `payId` stands for the
generated receipt number. -/
def createPayment (st : Store) (customer : Nat) (amount : ℚ) (allocs : List Alloc)
    (payId : Nat) : Except ApiError (Store × Payment) :=
  match lookupCustomer st customer with
  | none => Except.error ApiError.notFound
  | some _ =>
    match processAllocs st allocs with
    | Except.error e => Except.error e
    | Except.ok (st1, recorded, totalAllocated) =>
      let payment : Payment :=
        { customer := customer
          amount := amount
          sales := recorded
          totalAllocated := totalAllocated }
      Except.ok ({ st1 with payments := setEntry st1.payments payId payment }, payment)

/-- One iteration of the updatePayment reversal loop: a missing sale is
silently skipped (`if (sale) { ... }`); otherwise `paid -= old;
balance += old`, recompute the payment status, save (firing the
post-save hook) and `$inc` the customer's outstandingAmount by the
balance change. -/
def reverseAlloc (st : Store) (a : Alloc) : Store :=
  match lookupSale st a.sale with
  | none => st
  | some sale =>
    let oldBalance := sale.balance
    let sale2 : Sale := reversedSale sale a.amount
    let st1 := saveSale st a.sale sale2
    incOutstanding st1 sale.customer (sale2.balance - oldBalance)

/-- The updatePayment reversal loop over the stored allocations. -/
def reverseAllocs (st : Store) : List Alloc → Store
  | [] => st
  | a :: rest => reverseAllocs (reverseAlloc st a) rest

/-- One iteration of the updatePayment reapply loop: load the sale
(NotFound when missing), then — with no balance check and no clamping —
record the full requested amount, apply `paid += requested;
balance -= requested`, recompute the payment status, save (firing the
post-save hook) and `$inc` the customer's outstandingAmount by the
balance change. -/
def applyNewAlloc (st : Store) (a : Alloc) : Except ApiError (Store × Alloc) :=
  match lookupSale st a.sale with
  | none => Except.error ApiError.notFound
  | some sale =>
    let allocationAmount := a.amount
    let oldBalance := sale.balance
    let sale2 : Sale := appliedSale sale allocationAmount
    let st1 := saveSale st a.sale sale2
    let st2 := incOutstanding st1 sale.customer (sale2.balance - oldBalance)
    Except.ok (st2, ⟨a.sale, allocationAmount⟩)

/-- The updatePayment reapply loop over the new allocation list. -/
def applyNewAllocs (st : Store) : List Alloc → Except ApiError (Store × List Alloc × ℚ)
  | [] => Except.ok (st, [], 0)
  | a :: rest =>
    match applyNewAlloc st a with
    | Except.error e => Except.error e
    | Except.ok (st1, r) =>
      match applyNewAllocs st1 rest with
      | Except.error e => Except.error e
      | Except.ok (st2, rs, tot) => Except.ok (st2, r :: rs, r.amount + tot)

/-- paymentController.updatePayment: load the payment (NotFound when
missing), reverse every stored allocation, overwrite the scalar fields
(`amount || payment.amount`), then run the reapply loop against the new
allocation list, rebuilding `totalAllocated` from zero, and save the
payment. -/
def updatePayment (st : Store) (payId : Nat) (newAmount : Option ℚ)
    (newAllocs : List Alloc) : Except ApiError (Store × Payment) :=
  match lookupPayment st payId with
  | none => Except.error ApiError.notFound
  | some payment =>
    let st1 := reverseAllocs st payment.sales
    let amount1 := newAmount.getD payment.amount
    match applyNewAllocs st1 newAllocs with
    | Except.error e => Except.error e
    | Except.ok (st2, recorded, totalAllocated) =>
      let payment1 : Payment :=
        { payment with
          amount := amount1
          sales := recorded
          totalAllocated := totalAllocated }
      Except.ok ({ st2 with payments := setEntry st2.payments payId payment1 }, payment1)

/-- Request body of updateSale, restricted to the fields the balance
math reads; an omitted field is `none`. -/
structure SalePatch where
  items : Option (List RawItem)
  discount : Option ℚ
  tax : Option ℚ
  paid : Option ℚ
deriving DecidableEq

/-- saleController.updateSale: NotFound when the sale is missing,
InvalidState when it is cancelled; copy the supplied fields onto the
sale, recompute subtotal/total from scratch when items are supplied,
always recompute `balance = total - paid` (snapped to 0 when
`Math.abs < 0.01`) and the payment status, save the sale (firing the
post-save hook), then `$inc` the customer by the total and balance
diffs against the pre-update snapshot when either is nonzero. -/
def updateSale (st : Store) (saleId : Nat) (patch : SalePatch) :
    Except ApiError (Store × Sale) :=
  match lookupSale st saleId with
  | none => Except.error ApiError.notFound
  | some sale =>
    if sale.status = SaleStatus.cancelled then Except.error ApiError.invalidState
    else
      let oldTotal := sale.total
      let oldBalance := sale.balance
      let s1 : Sale :=
        match patch.items with
        | none =>
          { sale with
            discount := patch.discount.getD sale.discount
            tax := patch.tax.getD sale.tax
            paid := patch.paid.getD sale.paid }
        | some raw =>
          let items := raw.map (fun it =>
            (⟨it.product, it.quantity, it.price, it.discount,
              it.price * it.quantity - it.discount⟩ : SaleItem))
          let subtotal := (items.map SaleItem.total).sum
          let discount := patch.discount.getD sale.discount
          let tax := patch.tax.getD sale.tax
          { sale with
            items := items
            subtotal := subtotal
            discount := discount
            tax := tax
            total := subtotal - discount + tax
            paid := patch.paid.getD sale.paid }
      let currentBalance := s1.total - s1.paid
      let s2 : Sale :=
        { s1 with balance := if jsAbs currentBalance < 1/100 then 0 else currentBalance }
      let s3 : Sale := { s2 with paymentStatus := paymentStatusOf s2.balance s2.paid }
      let st1 := saveSale st saleId s3
      let totalDiff := s3.total - oldTotal
      let balanceDiff := s3.balance - oldBalance
      let st2 :=
        if totalDiff ≠ 0 ∨ balanceDiff ≠ 0 then
          incCustomerAgg st1 s3.customer totalDiff balanceDiff
        else st1
      Except.ok (st2, s3)

/-- The stock restore loop of deleteSale. -/
def restoreStocks (st : Store) : List SaleItem → Store
  | [] => st
  | it :: rest => restoreStocks (incStock st it.product it.quantity) rest

/-- saleController.deleteSale (sale cancellation): NotFound when the
sale is missing, InvalidState when it is already cancelled; restore the
stock of every item, apply the customer delta
`$inc {totalPurchase: -total, outstandingAmount: -balance}` from the
sale's current values, set status to cancelled and save (the post-save
hook then sees a cancelled sale and does nothing). -/
def deleteSale (st : Store) (saleId : Nat) : Except ApiError Store :=
  match lookupSale st saleId with
  | none => Except.error ApiError.notFound
  | some sale =>
    if sale.status = SaleStatus.cancelled then Except.error ApiError.invalidState
    else
      let st1 := restoreStocks st sale.items
      let st2 := incCustomerAgg st1 sale.customer (-sale.total) (-sale.balance)
      Except.ok (saveSale st2 saleId { sale with status := SaleStatus.cancelled })

/-- The Sale.find of the customer-list read path: that customer's
documents whose status is not 'cancelled'. -/
def nonCancelledSalesOf (st : Store) (c : Nat) : List Sale :=
  (st.sales.filter (fun p =>
    decide (p.2.customer = c ∧ p.2.status ≠ SaleStatus.cancelled))).map Prod.snd

/-- The `calculatedOutstanding` reduce of getCustomers: the sum of
`balance` over the customer's non-cancelled sales. -/
def calculatedOutstanding (st : Store) (c : Nat) : ℚ :=
  ((nonCancelledSalesOf st c).map Sale.balance).sum

/-- The `calculatedTotalPurchase` reduce of getCustomers: the sum of
`total` over the customer's non-cancelled sales. -/
def calculatedTotalPurchase (st : Store) (c : Nat) : ℚ :=
  ((nonCancelledSalesOf st c).map Sale.total).sum

/-- The response object getCustomers builds for one customer: the stored
aggregates overridden by the recomputed sums. -/
structure CustomerView where
  outstandingAmount : ℚ
  totalPurchase : ℚ
  calculatedOutstanding : ℚ
deriving DecidableEq

/-- The per-customer body of customerController.getCustomers: a read
that recomputes both aggregates from the non-cancelled sales and
substitutes them into the returned object; the store is returned
unchanged — nothing is persisted back. -/
def getCustomersEntry (st : Store) (c : Nat) : Option (CustomerView × Store) :=
  (lookupCustomer st c).map (fun _ =>
    (⟨calculatedOutstanding st c, calculatedTotalPurchase st c,
      calculatedOutstanding st c⟩, st))

/-- The §4.1 state-machine rule exactly as claim C2 words it, with the
non-strict comparison `|balance| ≤ ε` for the `paid` case; written only
to be compared against the source's `paymentStatusOf`. -/
def claimStatusRule (balance paid : ℚ) : PaymentStatus :=
  if balance < -(1/100) then PaymentStatus.overpaid
  else if jsAbs balance ≤ 1/100 then PaymentStatus.paid
  else if 0 < paid then PaymentStatus.partialPayment
  else PaymentStatus.pending

/-- The cumulative quantity of one product across a sale's items, the
net amount the deleteSale stock-restore loop adds back. -/
def qtyOf (items : List SaleItem) (p : Nat) : ℚ :=
  ((items.filter (fun it => it.product = p)).map SaleItem.quantity).sum

/-- Concrete sale for the C8 witness: total 1000, paid 600, balance 400,
one item of quantity 2 on product 1. -/
def c8Sale : Sale :=
  { customer := 0
    items := [⟨1, 2, 500, 0, 1000⟩]
    subtotal := 1000
    discount := 0
    tax := 0
    total := 1000
    paid := 600
    balance := 400
    paymentStatus := PaymentStatus.partialPayment
    status := SaleStatus.completed }

/-- Concrete store for the C8 witness: customer 0 carries exactly the
sale's aggregates, product 1 has stock 3. -/
def c8Store : Store :=
  { sales := [(1, c8Sale)]
    customers := [(0, ⟨400, 1000⟩)]
    products := [(1, ⟨3⟩)]
    payments := [] }

/-- Concrete open sale for the C6 witness (the spec's §8 scenario after
a first payment of 600): total 1000, paid 600, balance 400. -/
def c6SaleA : Sale :=
  { customer := 0
    items := []
    subtotal := 1000
    discount := 0
    tax := 0
    total := 1000
    paid := 600
    balance := 400
    paymentStatus := PaymentStatus.partialPayment
    status := SaleStatus.completed }

/-- Concrete store for the C6 witness. -/
def c6Store : Store :=
  { sales := [(1, c6SaleA)]
    customers := [(0, ⟨400, 1000⟩)]
    products := []
    payments := [] }

/-- The store createPayment produces from `c6Store` for a payment of 500
requested entirely against sale 1: the allocation is clamped to 400,
the sale is settled, and the customer outstanding drops to 0. -/
def c6ResultStore : Store :=
  { sales := [(1, ⟨0, [], 1000, 0, 0, 1000, 1000, 0, PaymentStatus.paid,
      SaleStatus.completed⟩)]
    customers := [(0, ⟨0, 1000⟩)]
    products := []
    payments := [(9, ⟨0, 500, [⟨1, 400⟩], 400⟩)] }

/-- Concrete open sale for the C7 witness: total 100, nothing paid. -/
def c7Sale : Sale :=
  { customer := 0
    items := []
    subtotal := 100
    discount := 0
    tax := 0
    total := 100
    paid := 0
    balance := 100
    paymentStatus := PaymentStatus.pending
    status := SaleStatus.completed }

/-- Concrete store for the C7 witness. -/
def c7Store : Store :=
  { sales := [(1, c7Sale)]
    customers := [(0, ⟨100, 100⟩)]
    products := []
    payments := [] }

/-- Request body for the C1 failing input: one item of quantity 1 at
price 1000, no discounts, no tax, nothing paid. -/
def c1Input : SaleInput :=
  { customer := 0
    items := [⟨1, 1, 1000, 0⟩]
    discount := 0
    tax := 0
    paid := 0 }

/-- Store for the C1 failing input: customer 0 with zero aggregates and
product 1 with ample stock. -/
def c1Store : Store :=
  { sales := []
    customers := [(0, ⟨0, 0⟩)]
    products := [(1, ⟨10⟩)]
    payments := [] }

/-- The balance-deviation invariant of claim C3: the stored balance
differs from total − paid by strictly less than the 0.01 epsilon. -/
def balConsistent (s : Sale) : Prop := jsAbs (s.balance - (s.total - s.paid)) < 1/100

/-- Store for the C3 counterexample: one fresh sale of total 100 with
nothing paid. -/
def c3Store : Store :=
  { sales := [(1, ⟨0, [], 100, 0, 0, 100, 0, 100, PaymentStatus.pending,
      SaleStatus.completed⟩)]
    customers := [(0, ⟨100, 100⟩)]
    products := []
    payments := [] }

/-- Open sale for the C4 counterexample: total 100, paid 70, balance 30. -/
def c4Sale : Sale :=
  { customer := 0
    items := []
    subtotal := 100
    discount := 0
    tax := 0
    total := 100
    paid := 70
    balance := 30
    paymentStatus := PaymentStatus.partialPayment
    status := SaleStatus.completed }

/-- Store for the C4 counterexample: a stored payment of 100 with no
allocations yet, and the open sale with balance 30. -/
def c4Store : Store :=
  { sales := [(1, c4Sale)]
    customers := [(0, ⟨30, 100⟩)]
    products := []
    payments := [(7, ⟨0, 100, [], 0⟩)] }

/-- The store updatePayment produces from `c4Store` for the new
allocation list [(sale 1, 50)]: the full 50 is applied with no clamping,
driving the sale's balance to −20. -/
def c4Result : Store :=
  { sales := [(1, ⟨0, [], 100, 0, 0, 100, 120, -20, PaymentStatus.overpaid,
      SaleStatus.completed⟩)]
    customers := [(0, ⟨-20, 100⟩)]
    products := []
    payments := [(7, ⟨0, 100, [⟨1, 50⟩], 50⟩)] }

/-- Store for the C4 settled-sale counterexample: sale 1 is fully paid
(balance 0), so createPayment would reject any allocation against it. -/
def c4ZeroStore : Store :=
  { sales := [(1, ⟨0, [], 100, 0, 0, 100, 100, 0, PaymentStatus.paid,
      SaleStatus.completed⟩)]
    customers := [(0, ⟨0, 100⟩)]
    products := []
    payments := [(7, ⟨0, 100, [], 0⟩)] }

/-- Sale for the C5 counterexample: total 1000, paid 600, balance 400. -/
def c5Sale : Sale :=
  { customer := 0
    items := []
    subtotal := 1000
    discount := 0
    tax := 0
    total := 1000
    paid := 600
    balance := 400
    paymentStatus := PaymentStatus.partialPayment
    status := SaleStatus.completed }

/-- Store for the C5 counterexample: a stored payment of 600 already
allocated in full to sale 1. -/
def c5Store : Store :=
  { sales := [(1, c5Sale)]
    customers := [(0, ⟨400, 1000⟩)]
    products := []
    payments := [(7, ⟨0, 600, [⟨1, 600⟩], 600⟩)] }

/-! Association-list and store lemmas used by the claim proofs. -/

theorem lookupList_adjustEntry_self {α : Type} (l : List (Nat × α)) (k : Nat) (f : α → α) :
    lookupList (adjustEntry l k f) k = (lookupList l k).map f := by
  induction l with
  | nil => rfl
  | cons p rest ih =>
    by_cases hp : p.1 = k
    · simp [adjustEntry, lookupList, hp]
    · simpa [adjustEntry, lookupList, hp] using ih

theorem lookupList_adjustEntry_ne {α : Type} (l : List (Nat × α)) (k k' : Nat) (f : α → α)
    (h : k' ≠ k) : lookupList (adjustEntry l k f) k' = lookupList l k' := by
  induction l with
  | nil => rfl
  | cons p rest ih =>
    by_cases hp : p.1 = k
    · have hp' : ¬ p.1 = k' := by rw [hp]; exact Ne.symm h
      simp only [adjustEntry, List.map_cons, if_pos hp] at ih ⊢
      rw [lookupList, lookupList]
      simp only [if_neg hp']
      exact ih
    · by_cases hp' : p.1 = k'
      · simp [adjustEntry, lookupList, hp, hp', h]
      · simp only [adjustEntry, List.map_cons, if_neg hp] at ih ⊢
        rw [lookupList, lookupList]
        simp only [if_neg hp']
        exact ih

theorem lookupList_none_iff_any {α : Type} (l : List (Nat × α)) (k : Nat) :
    lookupList l k = none ↔ l.any (fun p => p.1 = k) = false := by
  induction l with
  | nil => simp [lookupList]
  | cons p rest ih =>
    by_cases hp : p.1 = k
    · simp [lookupList, hp]
    · simp [lookupList, hp, ih]

theorem lookupList_replaceMap_self {α : Type} (l : List (Nat × α)) (k : Nat) (v : α) :
    lookupList (l.map (fun p => if p.1 = k then (k, v) else p)) k =
      (lookupList l k).map (fun _ => v) := by
  induction l with
  | nil => rfl
  | cons p rest ih =>
    by_cases hp : p.1 = k
    · simp [lookupList, hp]
    · simp only [List.map_cons, if_neg hp]
      rw [lookupList, lookupList]
      simp only [if_neg hp]
      exact ih

theorem lookupList_replaceMap_ne {α : Type} (l : List (Nat × α)) (k k' : Nat) (v : α)
    (h : k' ≠ k) :
    lookupList (l.map (fun p => if p.1 = k then (k, v) else p)) k' = lookupList l k' := by
  induction l with
  | nil => rfl
  | cons p rest ih =>
    by_cases hp : p.1 = k
    · have hp' : ¬ p.1 = k' := by rw [hp]; exact Ne.symm h
      simp only [List.map_cons, if_pos hp]
      rw [lookupList, lookupList]
      simp only [if_neg (Ne.symm h), if_neg hp']
      exact ih
    · by_cases hp' : p.1 = k'
      · simp [lookupList, hp, hp', h]
      · simp only [List.map_cons, if_neg hp]
        rw [lookupList, lookupList]
        simp only [if_neg hp']
        exact ih

theorem lookupList_setEntry_self {α : Type} (l : List (Nat × α)) (k : Nat) (v : α) :
    lookupList (setEntry l k v) k = some v := by
  unfold setEntry
  by_cases hany : (l.any fun p => decide (p.1 = k)) = true
  · simp only [hany, if_true]
    rw [lookupList_replaceMap_self]
    rcases hl : lookupList l k with _ | w
    · rw [lookupList_none_iff_any] at hl
      rw [hl] at hany
      cases hany
    · rfl
  · simp only [Bool.not_eq_true] at hany
    simp only [hany, Bool.false_eq_true, if_false]
    rw [lookupList]
    simp

theorem lookupList_setEntry_ne {α : Type} (l : List (Nat × α)) (k k' : Nat) (v : α)
    (h : k' ≠ k) : lookupList (setEntry l k v) k' = lookupList l k' := by
  unfold setEntry
  by_cases hany : (l.any fun p => decide (p.1 = k)) = true
  · simp only [hany, if_true]
    exact lookupList_replaceMap_ne l k k' v h
  · simp only [Bool.not_eq_true] at hany
    simp only [hany, Bool.false_eq_true, if_false]
    rw [lookupList]
    simp [Ne.symm h]

theorem saveSale_sales (st : Store) (k : Nat) (s : Sale) :
    (saveSale st k s).sales = setEntry st.sales k s := by
  unfold saveSale applySaveHook incOutstanding
  split <;> rfl

theorem saveSale_customers (st : Store) (k : Nat) (s : Sale) :
    (saveSale st k s).customers =
      if s.status = SaleStatus.completed ∧ 0 < s.balance then
        adjustEntry st.customers s.customer (bumpOutstanding s.balance)
      else st.customers := by
  unfold saveSale applySaveHook incOutstanding
  split <;> simp_all

theorem saveSale_products (st : Store) (k : Nat) (s : Sale) :
    (saveSale st k s).products = st.products := by
  unfold saveSale applySaveHook incOutstanding
  split <;> rfl

theorem saveSale_payments (st : Store) (k : Nat) (s : Sale) :
    (saveSale st k s).payments = st.payments := by
  unfold saveSale applySaveHook incOutstanding
  split <;> rfl

theorem lookupSale_saveSale_self (st : Store) (k : Nat) (s : Sale) :
    lookupSale (saveSale st k s) k = some s := by
  unfold lookupSale
  rw [saveSale_sales]
  exact lookupList_setEntry_self _ _ _

theorem lookupSale_saveSale_ne (st : Store) (k k' : Nat) (s : Sale) (h : k' ≠ k) :
    lookupSale (saveSale st k s) k' = lookupSale st k' := by
  unfold lookupSale
  rw [saveSale_sales]
  exact lookupList_setEntry_ne _ _ _ _ h

theorem lookupCustomer_saveSale_hook (st : Store) (k : Nat) (s : Sale)
    (hc : s.status = SaleStatus.completed) (hb : 0 < s.balance) :
    lookupCustomer (saveSale st k s) s.customer =
      (lookupCustomer st s.customer).map (bumpOutstanding s.balance) := by
  unfold lookupCustomer
  rw [saveSale_customers]
  rw [if_pos ⟨hc, hb⟩]
  exact lookupList_adjustEntry_self _ _ _

theorem saveSale_customers_nohook (st : Store) (k : Nat) (s : Sale)
    (h : ¬(s.status = SaleStatus.completed ∧ 0 < s.balance)) :
    (saveSale st k s).customers = st.customers := by
  rw [saveSale_customers, if_neg h]

theorem lookupCustomer_saveSale_ne (st : Store) (k : Nat) (s : Sale) (c : Nat)
    (h : c ≠ s.customer) :
    lookupCustomer (saveSale st k s) c = lookupCustomer st c := by
  unfold lookupCustomer
  rw [saveSale_customers]
  split
  · exact lookupList_adjustEntry_ne _ _ _ _ h
  · rfl

theorem lookupSale_incOutstanding (st : Store) (k : Nat) (d : ℚ) (k' : Nat) :
    lookupSale (incOutstanding st k d) k' = lookupSale st k' := rfl

theorem lookupSale_incCustomerAgg (st : Store) (k : Nat) (dPur dOut : ℚ) (k' : Nat) :
    lookupSale (incCustomerAgg st k dPur dOut) k' = lookupSale st k' := rfl

theorem lookupSale_incStock (st : Store) (k : Nat) (d : ℚ) (k' : Nat) :
    lookupSale (incStock st k d) k' = lookupSale st k' := rfl

theorem lookupCustomer_incOutstanding_self (st : Store) (k : Nat) (d : ℚ) :
    lookupCustomer (incOutstanding st k d) k =
      (lookupCustomer st k).map (bumpOutstanding d) :=
  lookupList_adjustEntry_self _ _ _

theorem lookupCustomer_incOutstanding_ne (st : Store) (k : Nat) (d : ℚ) (k' : Nat)
    (h : k' ≠ k) : lookupCustomer (incOutstanding st k d) k' = lookupCustomer st k' :=
  lookupList_adjustEntry_ne _ _ _ _ h

theorem lookupCustomer_incCustomerAgg_self (st : Store) (k : Nat) (dPur dOut : ℚ) :
    lookupCustomer (incCustomerAgg st k dPur dOut) k =
      (lookupCustomer st k).map (bumpAgg dPur dOut) :=
  lookupList_adjustEntry_self _ _ _

theorem lookupCustomer_incCustomerAgg_ne (st : Store) (k : Nat) (dPur dOut : ℚ) (k' : Nat)
    (h : k' ≠ k) :
    lookupCustomer (incCustomerAgg st k dPur dOut) k' = lookupCustomer st k' :=
  lookupList_adjustEntry_ne _ _ _ _ h

theorem lookupProduct_incStock_self (st : Store) (k : Nat) (d : ℚ) :
    lookupProduct (incStock st k d) k = (lookupProduct st k).map (bumpStock d) :=
  lookupList_adjustEntry_self _ _ _

theorem lookupProduct_incStock_ne (st : Store) (k : Nat) (d : ℚ) (k' : Nat) (h : k' ≠ k) :
    lookupProduct (incStock st k d) k' = lookupProduct st k' :=
  lookupList_adjustEntry_ne _ _ _ _ h

theorem lookupCustomer_incStock (st : Store) (k : Nat) (d : ℚ) (k' : Nat) :
    lookupCustomer (incStock st k d) k' = lookupCustomer st k' := rfl

theorem lookupProduct_saveSale (st : Store) (k : Nat) (s : Sale) (k' : Nat) :
    lookupProduct (saveSale st k s) k' = lookupProduct st k' := by
  unfold lookupProduct
  rw [saveSale_products]

theorem lookupProduct_incOutstanding (st : Store) (k : Nat) (d : ℚ) (k' : Nat) :
    lookupProduct (incOutstanding st k d) k' = lookupProduct st k' := rfl

theorem lookupProduct_incCustomerAgg (st : Store) (k : Nat) (dPur dOut : ℚ) (k' : Nat) :
    lookupProduct (incCustomerAgg st k dPur dOut) k' = lookupProduct st k' := rfl

/-! Claim C2: the payment-status rule. -/

/-- C2 counterexample: at (total, paid) = (1, 0.99) the balance is
exactly ε = 0.01.  The claim's rule `|balance| ≤ ε → paid` demands
`paid`, but the source compares strictly (`Math.abs(balance) < 0.01`)
and yields `partial`. -/
theorem C2_counterexample :
    paymentStatusOf ((1 : ℚ) - 99/100) (99/100) = PaymentStatus.partialPayment ∧
    claimStatusRule ((1 : ℚ) - 99/100) (99/100) = PaymentStatus.paid ∧
    paymentStatusOf ((1 : ℚ) - 99/100) (99/100) ≠
      claimStatusRule ((1 : ℚ) - 99/100) (99/100) := by
  have h1 : paymentStatusOf ((1 : ℚ) - 99/100) (99/100) = PaymentStatus.partialPayment := by
    norm_num [paymentStatusOf, jsAbs]
  have h2 : claimStatusRule ((1 : ℚ) - 99/100) (99/100) = PaymentStatus.paid := by
    norm_num [claimStatusRule, jsAbs]
  refine ⟨h1, h2, ?_⟩
  rw [h1, h2]
  exact fun hh => PaymentStatus.noConfusion hh

/-- C2 (amended): in every status-recomputation site the status is the
single pure (hence memoryless) function `paymentStatusOf` of the balance
and paid values of that site, and that function follows the state-machine
rule with strict epsilon comparisons: balance < −ε gives `overpaid`;
|balance| < ε gives `paid`; otherwise paid > 0 gives `partial` and
paid ≤ 0 gives `pending` (at |balance| = ε exactly, the status falls
through to `partial`/`pending`, not `paid`).  The spec's boundary
examples hold: paid = total − 0.005 gives `paid`, and paid = total − 0.02
with paid > 0 gives `partial`.  Sale creation stores
`paymentStatusOf (total − paid) paid`, and a successful payment
allocation stores a status consistent with the saved sale's own
(balance, paid) pair. -/
theorem C2_status_rule (total paid : ℚ) :
    (total - paid < -(1/100) →
      paymentStatusOf (total - paid) paid = PaymentStatus.overpaid) ∧
    (jsAbs (total - paid) < 1/100 →
      paymentStatusOf (total - paid) paid = PaymentStatus.paid) ∧
    (¬ total - paid < -(1/100) → ¬ jsAbs (total - paid) < 1/100 → 0 < paid →
      paymentStatusOf (total - paid) paid = PaymentStatus.partialPayment) ∧
    (¬ total - paid < -(1/100) → ¬ jsAbs (total - paid) < 1/100 → paid ≤ 0 →
      paymentStatusOf (total - paid) paid = PaymentStatus.pending) ∧
    paymentStatusOf (total - (total - 1/200)) (total - 1/200) = PaymentStatus.paid ∧
    (0 < total - 1/50 →
      paymentStatusOf (total - (total - 1/50)) (total - 1/50) =
        PaymentStatus.partialPayment) ∧
    (∀ (st : Store) (inp : SaleInput) (saleId : Nat) (st' : Store) (sale : Sale),
      createSale st inp saleId = Except.ok (st', sale) →
        sale.paymentStatus = paymentStatusOf (sale.total - sale.paid) sale.paid) ∧
    (∀ (st : Store) (a : Alloc) (st' : Store) (r : Alloc),
      allocStep st a = Except.ok (st', r) →
        ∃ s' : Sale, lookupSale st' a.sale = some s' ∧
          s'.paymentStatus = paymentStatusOf s'.balance s'.paid) := by
  refine ⟨?_, ?_, ?_, ?_, ?_, ?_, ?_, ?_⟩
  · intro h
    unfold paymentStatusOf
    rw [if_pos h]
  · intro h
    have h1 : ¬ total - paid < -(1/100) := by
      intro hlt
      have : (1/100 : ℚ) < jsAbs (total - paid) := by
        unfold jsAbs
        rw [if_pos (lt_trans hlt (by norm_num))]
        linarith
      linarith
    unfold paymentStatusOf
    rw [if_neg h1, if_pos h]
  · intro h1 h2 h3
    unfold paymentStatusOf
    rw [if_neg h1, if_neg h2, if_pos h3]
  · intro h1 h2 h3
    unfold paymentStatusOf
    rw [if_neg h1, if_neg h2, if_neg (not_lt.mpr h3)]
  · have heq : total - (total - 1/200) = (1/200 : ℚ) := by ring
    rw [heq]
    norm_num [paymentStatusOf, jsAbs]
  · intro h
    have heq : total - (total - 1/50) = (1/50 : ℚ) := by ring
    rw [heq]
    have hgt : ¬ (1/50 : ℚ) < -(1/100) := by norm_num
    have habs : ¬ jsAbs (1/50 : ℚ) < 1/100 := by norm_num [jsAbs]
    unfold paymentStatusOf
    rw [if_neg hgt, if_neg habs, if_pos h]
  · intro st inp saleId st' sale h
    unfold createSale at h
    cases hcu : lookupCustomer st inp.customer with
    | none => rw [hcu] at h; cases h
    | some c =>
      rw [hcu] at h
      cases hci : checkItems st inp.items with
      | error e => rw [hci] at h; cases h
      | ok pr =>
        rw [hci] at h
        obtain ⟨items, subtotal⟩ := pr
        simp only [Except.ok.injEq, Prod.mk.injEq] at h
        obtain ⟨-, hsale⟩ := h
        subst hsale
        rfl
  · intro st a st' r h
    unfold allocStep at h
    split at h
    · cases h
    · split at h
      · cases h
      · simp only [Except.ok.injEq, Prod.mk.injEq] at h
        obtain ⟨hst, -⟩ := h
        subst hst
        refine ⟨_, by rw [lookupSale_incOutstanding, lookupSale_saveSale_self], ?_⟩
        rfl

/-- C2 witness: the amended rule evaluated at concrete boundary inputs —
(total, paid) = (100, 99.98) gives `partial` (the paid = total − 0.02
boundary) and (100, 100.02) gives `overpaid`. -/
theorem C2_status_rule_witness :
    paymentStatusOf ((100 : ℚ) - (100 - 1/50)) (100 - 1/50) =
      PaymentStatus.partialPayment ∧
    paymentStatusOf ((100 : ℚ) - 10002/100) (10002/100) = PaymentStatus.overpaid := by
  constructor
  · exact (C2_status_rule 100 (100 - 1/50)).2.2.2.2.2.1 (by norm_num)
  · exact (C2_status_rule 100 (10002/100)).1 (by norm_num)

/-! Claim C9: the customer-list read-time reconciliation. -/

theorem calculatedOutstanding_eq (st : Store) (c : Nat) :
    calculatedOutstanding st c =
      (st.sales.map (fun p =>
        if p.2.customer = c ∧ p.2.status ≠ SaleStatus.cancelled then p.2.balance
        else 0)).sum := by
  unfold calculatedOutstanding nonCancelledSalesOf
  generalize st.sales = l
  induction l with
  | nil => rfl
  | cons p rest ih =>
    simp only [List.filter_cons, List.map_cons, List.sum_cons]
    by_cases hp : p.2.customer = c ∧ p.2.status ≠ SaleStatus.cancelled
    · rw [if_pos (by simp [hp]), if_pos hp]
      simp only [List.map_cons, List.sum_cons]
      rw [ih]
    · rw [if_neg (by simp [hp] : ¬ _), if_neg hp, ih, zero_add]

theorem calculatedTotalPurchase_eq (st : Store) (c : Nat) :
    calculatedTotalPurchase st c =
      (st.sales.map (fun p =>
        if p.2.customer = c ∧ p.2.status ≠ SaleStatus.cancelled then p.2.total
        else 0)).sum := by
  unfold calculatedTotalPurchase nonCancelledSalesOf
  generalize st.sales = l
  induction l with
  | nil => rfl
  | cons p rest ih =>
    simp only [List.filter_cons, List.map_cons, List.sum_cons]
    by_cases hp : p.2.customer = c ∧ p.2.status ≠ SaleStatus.cancelled
    · rw [if_pos (by simp [hp]), if_pos hp]
      simp only [List.map_cons, List.sum_cons]
      rw [ih]
    · rw [if_neg (by simp [hp] : ¬ _), if_neg hp, ih, zero_add]

/-- C9: for any store and any stored customer, the customer-list read
path serves a view whose outstandingAmount is the sum of `balance` and
whose totalPurchase is the sum of `total` over exactly that customer's
non-cancelled sales; the store comes back unchanged (nothing is
persisted); and the served values are the recomputed sums regardless of
the stored aggregates — overwriting the stored customer record with any
other values yields the identical view. -/
theorem C9_read_reconciliation (st : Store) (c : Nat) (cu : Customer)
    (h : lookupCustomer st c = some cu) :
    ∃ view : CustomerView,
      getCustomersEntry st c = some (view, st) ∧
      view.outstandingAmount =
        (st.sales.map (fun p =>
          if p.2.customer = c ∧ p.2.status ≠ SaleStatus.cancelled then p.2.balance
          else 0)).sum ∧
      view.totalPurchase =
        (st.sales.map (fun p =>
          if p.2.customer = c ∧ p.2.status ≠ SaleStatus.cancelled then p.2.total
          else 0)).sum ∧
      (∀ cu' : Customer,
        getCustomersEntry { st with customers := setEntry st.customers c cu' } c =
          some (view, { st with customers := setEntry st.customers c cu' })) := by
  refine ⟨⟨calculatedOutstanding st c, calculatedTotalPurchase st c,
    calculatedOutstanding st c⟩, ?_, ?_, ?_, ?_⟩
  · unfold getCustomersEntry
    rw [h]
    rfl
  · exact calculatedOutstanding_eq st c
  · exact calculatedTotalPurchase_eq st c
  · intro cu'
    unfold getCustomersEntry
    have h2 : lookupCustomer { st with customers := setEntry st.customers c cu' } c =
        some cu' := lookupList_setEntry_self _ _ _
    rw [h2]
    rfl

/-- C9 witness: a two-sale store (one sale cancelled) whose stored
aggregates (5, 7) disagree with the recomputed sums; the read path
serves the recomputed sums. -/
theorem C9_read_reconciliation_witness :
    lookupCustomer
      (Store.mk
        [(1, ⟨0, [], 100, 0, 0, 100, 40, 60, PaymentStatus.partialPayment,
              SaleStatus.completed⟩),
         (2, ⟨0, [], 50, 0, 0, 50, 0, 50, PaymentStatus.pending,
              SaleStatus.cancelled⟩)]
        [(0, ⟨5, 7⟩)] [] [])
      0 = some ⟨5, 7⟩ ∧
    ∃ view : CustomerView,
      getCustomersEntry
        (Store.mk
          [(1, ⟨0, [], 100, 0, 0, 100, 40, 60, PaymentStatus.partialPayment,
                SaleStatus.completed⟩),
           (2, ⟨0, [], 50, 0, 0, 50, 0, 50, PaymentStatus.pending,
                SaleStatus.cancelled⟩)]
          [(0, ⟨5, 7⟩)] [] [])
        0 =
        some (view,
          Store.mk
            [(1, ⟨0, [], 100, 0, 0, 100, 40, 60, PaymentStatus.partialPayment,
                  SaleStatus.completed⟩),
             (2, ⟨0, [], 50, 0, 0, 50, 0, 50, PaymentStatus.pending,
                  SaleStatus.cancelled⟩)]
            [(0, ⟨5, 7⟩)] [] []) ∧
      view.outstandingAmount = 60 ∧ view.totalPurchase = 100 := by
  constructor
  · rfl
  · obtain ⟨view, hv, ho, ht, -⟩ :=
      C9_read_reconciliation
        (Store.mk
          [(1, ⟨0, [], 100, 0, 0, 100, 40, 60, PaymentStatus.partialPayment,
                SaleStatus.completed⟩),
           (2, ⟨0, [], 50, 0, 0, 50, 0, 50, PaymentStatus.pending,
                SaleStatus.cancelled⟩)]
          [(0, ⟨5, 7⟩)] [] [])
        0 ⟨5, 7⟩ rfl
    have hne : SaleStatus.completed ≠ SaleStatus.cancelled :=
      fun hh => SaleStatus.noConfusion hh
    refine ⟨view, hv, ?_, ?_⟩
    · rw [ho]
      norm_num [hne]
    · rw [ht]
      norm_num [hne]

/-! Claim C8: sale cancellation. -/

theorem restoreStocks_sales (st : Store) (items : List SaleItem) :
    (restoreStocks st items).sales = st.sales := by
  induction items generalizing st with
  | nil => rfl
  | cons it rest ih =>
    rw [restoreStocks, ih]
    rfl

theorem restoreStocks_customers (st : Store) (items : List SaleItem) :
    (restoreStocks st items).customers = st.customers := by
  induction items generalizing st with
  | nil => rfl
  | cons it rest ih =>
    rw [restoreStocks, ih]
    rfl

theorem restoreStocks_payments (st : Store) (items : List SaleItem) :
    (restoreStocks st items).payments = st.payments := by
  induction items generalizing st with
  | nil => rfl
  | cons it rest ih =>
    rw [restoreStocks, ih]
    rfl

theorem lookupProduct_restoreStocks (st : Store) (items : List SaleItem) (p : Nat) :
    lookupProduct (restoreStocks st items) p =
      (lookupProduct st p).map (fun pr => ⟨pr.stockCurrent + qtyOf items p⟩) := by
  induction items generalizing st with
  | nil =>
    have h0 : qtyOf [] p = 0 := rfl
    rw [restoreStocks, h0]
    rcases h : lookupProduct st p with _ | ⟨q⟩
    · rfl
    · simp
  | cons it rest ih =>
    rw [restoreStocks, ih]
    by_cases hp : it.product = p
    · subst hp
      rw [lookupProduct_incStock_self]
      rcases h : lookupProduct st it.product with _ | pr
      · rfl
      · simp only [Option.map_some', Option.some.injEq]
        have hq : qtyOf (it :: rest) it.product = it.quantity + qtyOf rest it.product := by
          unfold qtyOf
          rw [List.filter_cons, if_pos (by simp)]
          simp
        rw [hq, bumpStock]
        simp only [Product.mk.injEq]
        ring
    · rw [lookupProduct_incStock_ne _ _ _ _ (fun hh => hp hh.symm)]
      have hq : qtyOf (it :: rest) p = qtyOf rest p := by
        unfold qtyOf
        rw [List.filter_cons, if_neg (by simp [hp])]
      rw [hq]

/-- C8: cancelling a non-cancelled sale restores each product's stock by
the sale's cumulative item quantity for that product, applies exactly
the customer delta totalPurchase -= total and outstandingAmount -=
balance at the sale's current values, marks the sale cancelled while
leaving every other sale alone, and leaves the payments collection
untouched; cancelling an already-cancelled sale is rejected with
InvalidState (no new store is produced). -/
theorem C8_cancellation (st : Store) (saleId : Nat) (s : Sale)
    (hs : lookupSale st saleId = some s) :
    (s.status = SaleStatus.cancelled →
      deleteSale st saleId = Except.error ApiError.invalidState) ∧
    (s.status ≠ SaleStatus.cancelled →
      ∃ st' : Store, deleteSale st saleId = Except.ok st' ∧
        (∀ p : Nat, lookupProduct st' p =
          (lookupProduct st p).map (fun pr => ⟨pr.stockCurrent + qtyOf s.items p⟩)) ∧
        lookupCustomer st' s.customer =
          (lookupCustomer st s.customer).map
            (fun c => ⟨c.outstandingAmount - s.balance, c.totalPurchase - s.total⟩) ∧
        lookupSale st' saleId = some { s with status := SaleStatus.cancelled } ∧
        (∀ k : Nat, k ≠ saleId → lookupSale st' k = lookupSale st k) ∧
        st'.payments = st.payments) := by
  constructor
  · intro hc
    simp [deleteSale, hs, hc]
  · intro hc
    refine ⟨saveSale (incCustomerAgg (restoreStocks st s.items) s.customer (-s.total)
      (-s.balance)) saleId { s with status := SaleStatus.cancelled }, ?_, ?_, ?_, ?_, ?_, ?_⟩
    · simp [deleteSale, hs, hc]
    · intro p
      rw [lookupProduct_saveSale, lookupProduct_incCustomerAgg,
        lookupProduct_restoreStocks]
    · have hnohook :
        ¬(({ s with status := SaleStatus.cancelled } : Sale).status =
            SaleStatus.completed ∧
          0 < ({ s with status := SaleStatus.cancelled } : Sale).balance) := by
        intro hcon
        exact SaleStatus.noConfusion hcon.1
      unfold lookupCustomer
      rw [saveSale_customers_nohook _ _ _ hnohook]
      have : (incCustomerAgg (restoreStocks st s.items) s.customer (-s.total)
          (-s.balance)).customers =
          adjustEntry st.customers s.customer (bumpAgg (-s.total) (-s.balance)) := by
        unfold incCustomerAgg
        rw [restoreStocks_customers]
      rw [this, lookupList_adjustEntry_self]
      rcases lookupList st.customers s.customer with _ | c
      · rfl
      · simp only [Option.map_some', Option.some.injEq, bumpAgg, Customer.mk.injEq]
        constructor <;> ring
    · rw [lookupSale_saveSale_self]
    · intro k hk
      rw [lookupSale_saveSale_ne _ _ _ _ hk, lookupSale_incCustomerAgg]
      unfold lookupSale
      rw [restoreStocks_sales]
    · rw [saveSale_payments]
      unfold incCustomerAgg
      rw [restoreStocks_payments]

/-- C8 witness: the spec's concrete instance — cancelling the sale with
total 1000 and balance 400 takes the customer from (outstanding 400,
totalPurchase 1000) to (0, 0) and restores product 1's stock from 3 to
5; the sale ends cancelled and payments stay empty. -/
theorem C8_cancellation_witness :
    (deleteSale c8Store 1).toOption.map
        (fun st' => (lookupCustomer st' 0, lookupProduct st' 1, lookupSale st' 1,
          st'.payments)) =
      some (some ⟨0, 0⟩, some ⟨5⟩,
        some { c8Sale with status := SaleStatus.cancelled }, []) := by
  obtain ⟨-, h2⟩ := C8_cancellation c8Store 1 c8Sale rfl
  obtain ⟨st', hok, hprod, hcust, hsale, -, hpay⟩ :=
    h2 (fun hh => SaleStatus.noConfusion hh)
  rw [hok]
  show some (lookupCustomer st' 0, lookupProduct st' 1, lookupSale st' 1, st'.payments) = _
  have hcu : lookupCustomer st' 0 = some ⟨0, 0⟩ := by
    have h0 : lookupCustomer c8Store c8Sale.customer = some ⟨400, 1000⟩ := rfl
    rw [show (0 : Nat) = c8Sale.customer from rfl, hcust, h0]
    simp only [Option.map_some', Option.some.injEq, Customer.mk.injEq]
    constructor <;> norm_num [c8Sale]
  have hpr : lookupProduct st' 1 = some ⟨5⟩ := by
    rw [hprod 1, show lookupProduct c8Store 1 = some ⟨3⟩ from rfl]
    simp only [Option.map_some', Option.some.injEq, Product.mk.injEq]
    norm_num [c8Sale, qtyOf]
  rw [hcu, hpr, hsale, hpay]
  rfl

/-! Claims C6 and C7: the createPayment allocation loop. -/

theorem allocStep_ok (st : Store) (a : Alloc) (s : Sale)
    (h : lookupSale st a.sale = some s) (hb : 0 < s.balance) :
    allocStep st a = Except.ok
      (incOutstanding
        (saveSale st a.sale
          { s with paid := s.paid + jsMin a.amount s.balance,
                   balance := s.balance - jsMin a.amount s.balance,
                   paymentStatus := paymentStatusOf (s.balance - jsMin a.amount s.balance)
                     (s.paid + jsMin a.amount s.balance) })
        s.customer ((s.balance - jsMin a.amount s.balance) - s.balance),
       ⟨a.sale, jsMin a.amount s.balance⟩) := by
  unfold allocStep
  simp only [h]
  rw [if_neg (not_le.mpr hb)]
  rfl

theorem allocStep_invalidState_iff (st : Store) (a : Alloc) (s : Sale)
    (h : lookupSale st a.sale = some s) :
    allocStep st a = Except.error ApiError.invalidState ↔ s.balance ≤ 0 := by
  unfold allocStep
  simp only [h]
  by_cases hb : s.balance ≤ 0
  · simp [hb]
  · rw [if_neg hb]
    simp [hb]

theorem processAllocs_total_sum (allocs : List Alloc) :
    ∀ (st st' : Store) (rec : List Alloc) (tot : ℚ),
      processAllocs st allocs = Except.ok (st', rec, tot) →
      tot = (rec.map Alloc.amount).sum := by
  induction allocs with
  | nil =>
    intro st st' rec tot h
    unfold processAllocs at h
    simp only [Except.ok.injEq, Prod.mk.injEq] at h
    obtain ⟨-, hrec, htot⟩ := h
    subst hrec
    subst htot
    rfl
  | cons a rest ih =>
    intro st st' rec tot h
    unfold processAllocs at h
    split at h
    · cases h
    next st1 r hstep =>
      split at h
      · cases h
      next st2 rs tot0 hrest =>
        simp only [Except.ok.injEq, Prod.mk.injEq] at h
        obtain ⟨-, hrec, htot⟩ := h
        subst hrec
        subst htot
        simp only [List.map_cons, List.sum_cons]
        rw [ih st1 st2 rs tot0 hrest]

/-- C6: in createPayment the applied amount of each allocation is
`Math.min(requested, current balance)` — when the requested amount
exceeds the sale's remaining balance only the remaining balance is
applied and the clamped (not the requested) amount is recorded; the
payment's totalAllocated is the sum of the recorded applied amounts, and
the excess stays retrievable as `remainingAmount = amount −
totalAllocated` on the stored payment. -/
theorem C6_allocation_clamping :
    (∀ (st : Store) (a : Alloc) (s : Sale),
      lookupSale st a.sale = some s → 0 < s.balance →
      ∃ st₁ : Store,
        allocStep st a = Except.ok (st₁, ⟨a.sale, jsMin a.amount s.balance⟩) ∧
        (s.balance < a.amount →
          jsMin a.amount s.balance = s.balance ∧ jsMin a.amount s.balance ≠ a.amount)) ∧
    (∀ (st : Store) (allocs : List Alloc) (st' : Store) (rec : List Alloc) (tot : ℚ),
      processAllocs st allocs = Except.ok (st', rec, tot) →
      tot = (rec.map Alloc.amount).sum) ∧
    (∀ (st : Store) (customer : Nat) (amount : ℚ) (allocs : List Alloc) (payId : Nat)
      (st' : Store) (pay : Payment),
      createPayment st customer amount allocs payId = Except.ok (st', pay) →
      pay.totalAllocated = (pay.sales.map Alloc.amount).sum ∧
      pay.remainingAmount = amount - (pay.sales.map Alloc.amount).sum ∧
      lookupPayment st' payId = some pay) := by
  refine ⟨?_, ?_, ?_⟩
  · intro st a s h hb
    refine ⟨_, allocStep_ok st a s h hb, ?_⟩
    intro hlt
    constructor
    · unfold jsMin
      rw [if_neg (not_le.mpr hlt)]
    · unfold jsMin
      rw [if_neg (not_le.mpr hlt)]
      exact ne_of_lt hlt
  · intro st allocs st' rec tot h
    exact processAllocs_total_sum allocs st st' rec tot h
  · intro st customer amount allocs payId st' pay h
    unfold createPayment at h
    split at h
    · cases h
    next c hcu =>
      split at h
      · cases h
      next st1 recorded totalAllocated hrun =>
        simp only [Except.ok.injEq, Prod.mk.injEq] at h
        obtain ⟨hst, hpay⟩ := h
        subst hpay
        have hsum : totalAllocated = (recorded.map Alloc.amount).sum :=
          processAllocs_total_sum allocs st st1 recorded totalAllocated hrun
        refine ⟨hsum, ?_, ?_⟩
        · show amount - totalAllocated = amount - (recorded.map Alloc.amount).sum
          rw [hsum]
        · subst hst
          exact lookupList_setEntry_self _ _ _

/-- C6 witness: the spec's §8 second payment — 500 against a sale with
balance 400 is clamped to 400: the stored payment records 400 (not 500),
totalAllocated = 400 = the sum of recorded amounts, and remainingAmount
= 500 − 400 = 100. -/
theorem C6_allocation_clamping_witness :
    (⟨0, 500, [⟨1, 400⟩], 400⟩ : Payment).totalAllocated =
      ((⟨0, 500, [⟨1, 400⟩], 400⟩ : Payment).sales.map Alloc.amount).sum ∧
    (⟨0, 500, [⟨1, 400⟩], 400⟩ : Payment).remainingAmount =
      500 - ((⟨0, 500, [⟨1, 400⟩], 400⟩ : Payment).sales.map Alloc.amount).sum ∧
    lookupPayment c6ResultStore 9 = some ⟨0, 500, [⟨1, 400⟩], 400⟩ := by
  have heval : createPayment c6Store 0 500 [⟨1, 500⟩] 9 =
      Except.ok (c6ResultStore, ⟨0, 500, [⟨1, 400⟩], 400⟩) := by
    norm_num [createPayment, processAllocs, allocStep, appliedSale, lookupCustomer,
      lookupSale, lookupPayment, lookupList, c6Store, c6SaleA, c6ResultStore, jsMin,
      paymentStatusOf, jsAbs, saveSale, applySaveHook, setEntry, adjustEntry,
      incOutstanding, bumpOutstanding]
  exact C6_allocation_clamping.2.2 c6Store 0 500 [⟨1, 500⟩] 9 c6ResultStore
    ⟨0, 500, [⟨1, 400⟩], 400⟩ heval

/-- C7: allocations are processed sequentially in the caller's order
against the running store.  An allocation fails InvalidState exactly
when the target sale's balance is ≤ 0 at the moment it is reached —
the criterion does not mention the requested amount at all — and a list
that allocates to the same sale twice sees, on the second pass, the
balance already reduced by the first (clamped) allocation: if the first
allocation exhausts the balance the second fails InvalidState, otherwise
the second is clamped against the reduced balance. -/
theorem C7_sequential_allocation :
    (∀ (st : Store) (a : Alloc) (s : Sale), lookupSale st a.sale = some s →
      (allocStep st a = Except.error ApiError.invalidState ↔ s.balance ≤ 0)) ∧
    (∀ (st : Store) (sid : Nat) (s : Sale) (r1 r2 : ℚ),
      lookupSale st sid = some s → 0 < s.balance →
      (s.balance - jsMin r1 s.balance ≤ 0 →
        processAllocs st [⟨sid, r1⟩, ⟨sid, r2⟩] = Except.error ApiError.invalidState) ∧
      (0 < s.balance - jsMin r1 s.balance →
        ∃ (st'' : Store) (tot : ℚ),
          processAllocs st [⟨sid, r1⟩, ⟨sid, r2⟩] =
            Except.ok (st'',
              [⟨sid, jsMin r1 s.balance⟩,
               ⟨sid, jsMin r2 (s.balance - jsMin r1 s.balance)⟩], tot))) := by
  constructor
  · intro st a s h
    exact allocStep_invalidState_iff st a s h
  · intro st sid s r1 r2 hs hb
    have h1 : allocStep st ⟨sid, r1⟩ = Except.ok
        (incOutstanding
          (saveSale st sid
            { s with paid := s.paid + jsMin r1 s.balance,
                     balance := s.balance - jsMin r1 s.balance,
                     paymentStatus := paymentStatusOf (s.balance - jsMin r1 s.balance)
                       (s.paid + jsMin r1 s.balance) })
          s.customer ((s.balance - jsMin r1 s.balance) - s.balance),
         ⟨sid, jsMin r1 s.balance⟩) := allocStep_ok st ⟨sid, r1⟩ s hs hb
    have hlook2 : lookupSale
        (incOutstanding
          (saveSale st sid
            { s with paid := s.paid + jsMin r1 s.balance,
                     balance := s.balance - jsMin r1 s.balance,
                     paymentStatus := paymentStatusOf (s.balance - jsMin r1 s.balance)
                       (s.paid + jsMin r1 s.balance) })
          s.customer ((s.balance - jsMin r1 s.balance) - s.balance))
        sid = some
          { s with paid := s.paid + jsMin r1 s.balance,
                   balance := s.balance - jsMin r1 s.balance,
                   paymentStatus := paymentStatusOf (s.balance - jsMin r1 s.balance)
                     (s.paid + jsMin r1 s.balance) } := by
      rw [lookupSale_incOutstanding, lookupSale_saveSale_self]
    constructor
    · intro hle
      have h2 := (allocStep_invalidState_iff _ (⟨sid, r2⟩ : Alloc) _ hlook2).mpr hle
      simp only [processAllocs, h1, h2]
    · intro hpos
      have h2 := allocStep_ok _ (⟨sid, r2⟩ : Alloc) _ hlook2 hpos
      simp only [processAllocs, h1, h2]
      exact ⟨_, _, rfl⟩

/-- C7 witness: on a sale with balance 100, the list [100, 50] fails
InvalidState on the second pass (the first pass exhausted the balance),
while a single allocation against the same sale is not an InvalidState
failure exactly because 100 ≤ 0 is false. -/
theorem C7_sequential_allocation_witness :
    processAllocs c7Store [⟨1, 100⟩, ⟨1, 50⟩] = Except.error ApiError.invalidState ∧
    (allocStep c7Store ⟨1, 77⟩ = Except.error ApiError.invalidState ↔ (100 : ℚ) ≤ 0) := by
  constructor
  · exact ((C7_sequential_allocation.2 c7Store 1 c7Sale 100 50 rfl
      (by norm_num [c7Sale])).1 (by norm_num [c7Sale, jsMin]))
  · have h := C7_sequential_allocation.1 c7Store ⟨1, 77⟩ c7Sale rfl
    rw [show c7Sale.balance = (100 : ℚ) from rfl] at h
    exact h

/-! Claim C10: the post('save') hook as a frame effect on the customer
aggregate. -/

/-- C10: every save of a Sale whose status is 'completed' and whose
balance is strictly positive additionally increments the stored customer
outstandingAmount by the sale's full current balance (and any other save
leaves the customers collection untouched); consequently a successful
payment allocation on such a sale changes the stored outstanding by the
explicit balance-change delta PLUS the sale's new balance — strictly
more than the stated delta whenever the new balance is positive — and a
sale update that leaves the total unchanged likewise adds the sale's new
balance on top of its explicit balanceDiff delta. -/
theorem C10_save_hook_frame_effect :
    (∀ (st : Store) (k : Nat) (s : Sale),
      (s.status = SaleStatus.completed → 0 < s.balance →
        lookupCustomer (saveSale st k s) s.customer =
          (lookupCustomer st s.customer).map (bumpOutstanding s.balance)) ∧
      (¬(s.status = SaleStatus.completed ∧ 0 < s.balance) →
        (saveSale st k s).customers = st.customers)) ∧
    (∀ (st : Store) (a : Alloc) (s : Sale) (c : Customer),
      lookupSale st a.sale = some s → s.status = SaleStatus.completed →
      lookupCustomer st s.customer = some c → 0 < s.balance →
      0 < s.balance - jsMin a.amount s.balance →
      ∃ st₁ : Store,
        allocStep st a = Except.ok (st₁, ⟨a.sale, jsMin a.amount s.balance⟩) ∧
        lookupCustomer st₁ s.customer =
          some ⟨c.outstandingAmount +
            ((s.balance - jsMin a.amount s.balance) - s.balance) +
            (s.balance - jsMin a.amount s.balance), c.totalPurchase⟩ ∧
        c.outstandingAmount + ((s.balance - jsMin a.amount s.balance) - s.balance) <
          c.outstandingAmount + ((s.balance - jsMin a.amount s.balance) - s.balance) +
            (s.balance - jsMin a.amount s.balance)) ∧
    (∀ (st : Store) (saleId : Nat) (s : Sale) (c : Customer) (p' : ℚ),
      lookupSale st saleId = some s → s.status = SaleStatus.completed →
      lookupCustomer st s.customer = some c →
      ¬ jsAbs (s.total - p') < 1/100 → 0 < s.total - p' → s.total - p' ≠ s.balance →
      ∃ (st' : Store) (s' : Sale),
        updateSale st saleId ⟨none, none, none, some p'⟩ = Except.ok (st', s') ∧
        lookupCustomer st' s.customer =
          some ⟨c.outstandingAmount + (s.total - p') + ((s.total - p') - s.balance),
            c.totalPurchase⟩ ∧
        c.outstandingAmount + ((s.total - p') - s.balance) <
          c.outstandingAmount + (s.total - p') + ((s.total - p') - s.balance)) := by
  refine ⟨?_, ?_, ?_⟩
  · intro st k s
    constructor
    · intro hc hb
      exact lookupCustomer_saveSale_hook st k s hc hb
    · exact saveSale_customers_nohook st k s
  · intro st a s c hs hcomp hcust hb hb'
    refine ⟨_, allocStep_ok st a s hs hb, ?_, by linarith⟩
    rw [lookupCustomer_incOutstanding_self]
    have hhook := lookupCustomer_saveSale_hook st a.sale
      { s with paid := s.paid + jsMin a.amount s.balance,
               balance := s.balance - jsMin a.amount s.balance,
               paymentStatus := paymentStatusOf (s.balance - jsMin a.amount s.balance)
                 (s.paid + jsMin a.amount s.balance) }
      hcomp hb'
    rw [hhook, hcust]
    simp only [Option.map_some', Option.some.injEq, bumpOutstanding, Customer.mk.injEq]
    constructor
    · ring
    · trivial
  · intro st saleId s c p' hs hcomp hcust hsnap hpos hne
    have hnc : ¬ s.status = SaleStatus.cancelled := by
      rw [hcomp]
      exact fun hh => SaleStatus.noConfusion hh
    have hineq : c.outstandingAmount + ((s.total - p') - s.balance) <
        c.outstandingAmount + (s.total - p') + ((s.total - p') - s.balance) := by
      linarith
    refine ⟨incCustomerAgg
        (saveSale st saleId
          { s with paid := p', balance := s.total - p',
                   paymentStatus := paymentStatusOf (s.total - p') p' })
        s.customer (s.total - s.total) ((s.total - p') - s.balance),
      { s with paid := p', balance := s.total - p',
               paymentStatus := paymentStatusOf (s.total - p') p' },
      ?_, ?_, hineq⟩
    · unfold updateSale
      simp only [hs]
      rw [if_neg hnc]
      simp only [Option.getD_none, Option.getD_some]
      rw [if_neg hsnap]
      rw [if_pos (Or.inr (show (s.total - p') - s.balance ≠ 0 from
        fun hh => hne (by linarith)))]
    · rw [lookupCustomer_incCustomerAgg_self]
      have hhook := lookupCustomer_saveSale_hook st saleId
        { s with paid := p', balance := s.total - p',
                 paymentStatus := paymentStatusOf (s.total - p') p' }
        hcomp hpos
      rw [hhook, hcust]
      simp only [Option.map_some', Option.some.injEq, bumpOutstanding, bumpAgg,
        Customer.mk.injEq]
      constructor
      · ring
      · ring

/-- C10 witness: saving the completed sale with balance 400 onto the
store whose customer 0 holds outstanding 400 bumps the stored
outstanding to 800 with no explicit delta applied at all. -/
theorem C10_save_hook_frame_effect_witness :
    lookupCustomer (saveSale c8Store 1 c8Sale) c8Sale.customer = some ⟨800, 1000⟩ := by
  have h := (C10_save_hook_frame_effect.1 c8Store 1 c8Sale).1 rfl (by norm_num [c8Sale])
  rw [h, show lookupCustomer c8Store c8Sale.customer = some ⟨400, 1000⟩ from rfl]
  simp only [Option.map_some', Option.some.injEq, bumpOutstanding, Customer.mk.injEq]
  norm_num [c8Sale]

/-! Claim C1: the customer delta of sale creation. -/

/-- C1 (code-bug evidence): creating a sale with total 1000 and paid 0
(so balance B = 1000) onto a customer whose stored aggregates are zero
leaves the stored outstandingAmount at 2000, not B = 1000: the explicit
controller delta adds the balance once and the post('save') hook fired
by Sale.create adds it a second time.  totalPurchase does change by
exactly the total. -/
theorem C1_create_double_count :
    (createSale c1Store c1Input 5).toOption.map
        (fun r => (lookupCustomer r.1 0, r.2.total, r.2.balance)) =
      some (some ⟨2000, 1000⟩, 1000, 1000) := by
  norm_num [createSale, checkItems, c1Store, c1Input, lookupCustomer, lookupSale,
    lookupProduct, lookupList, saveSale, applySaveHook, setEntry, adjustEntry,
    incOutstanding, incCustomerAgg, bumpOutstanding, bumpAgg, decStocks, incStock,
    bumpStock, paymentStatusOf, jsAbs, Except.toOption]

/-! Claim C3: the balance invariant. -/

theorem jsAbs_eq_abs (x : ℚ) : jsAbs x = |x| := by
  unfold jsAbs
  by_cases h : x < 0
  · rw [if_pos h, abs_of_neg h]
  · rw [if_neg h, abs_of_nonneg (not_lt.mp h)]

theorem snap_balConsistent (t p : ℚ) :
    jsAbs ((if jsAbs (t - p) < 1/100 then 0 else t - p) - (t - p)) < 1/100 := by
  by_cases h : jsAbs (t - p) < 1/100
  · rw [if_pos h, zero_sub, jsAbs_eq_abs, abs_neg, ← jsAbs_eq_abs]
    exact h
  · rw [if_neg h, sub_self, jsAbs_eq_abs, abs_zero]
    norm_num

/-- C3 counterexample: allocating 99.995 against a sale with total 100
and paid 0 leaves total − paid = 0.005, within epsilon of zero, yet the
stored balance is 0.005, not 0 — the payment-allocation path subtracts
the applied amount directly and never snaps. -/
theorem C3_counterexample :
    (createPayment c3Store 0 (99995/1000) [⟨1, 99995/1000⟩] 9).toOption.map
        (fun r => (lookupSale r.1 1).map (fun s => (s.total, s.paid, s.balance))) =
      some (some (100, 99995/1000, 1/200)) ∧
    jsAbs ((100 : ℚ) - 99995/1000) < 1/100 ∧ (1/200 : ℚ) ≠ 0 := by
  refine ⟨?_, by norm_num [jsAbs], by norm_num⟩
  norm_num [createPayment, processAllocs, allocStep, appliedSale, c3Store,
    lookupCustomer, lookupSale, lookupPayment, lookupList, jsMin, paymentStatusOf,
    jsAbs, saveSale, applySaveHook, setEntry, adjustEntry, incOutstanding,
    bumpOutstanding, Except.toOption]

theorem balConsistent_alloc (s : Sale) (d : ℚ) (h : balConsistent s) :
    balConsistent { s with paid := s.paid + d, balance := s.balance - d,
                           paymentStatus := paymentStatusOf (s.balance - d) (s.paid + d) } := by
  unfold balConsistent at h ⊢
  show jsAbs ((s.balance - d) - (s.total - (s.paid + d))) < 1/100
  rw [show (s.balance - d) - (s.total - (s.paid + d)) =
    s.balance - (s.total - s.paid) from by ring]
  exact h

theorem balConsistent_reverse (s : Sale) (d : ℚ) (h : balConsistent s) :
    balConsistent { s with paid := s.paid - d, balance := s.balance + d,
                           paymentStatus := paymentStatusOf (s.balance + d) (s.paid - d) } := by
  unfold balConsistent at h ⊢
  show jsAbs ((s.balance + d) - (s.total - (s.paid - d))) < 1/100
  rw [show (s.balance + d) - (s.total - (s.paid - d)) =
    s.balance - (s.total - s.paid) from by ring]
  exact h

/-- C3 (amended): the balance stays strictly within epsilon of
total − paid after every mutating operation, and it is snapped to
exactly 0 where it is recomputed — sale creation and sale update snap
whenever |total − paid| < 0.01 — while payment allocation, allocation
reversal and cancellation preserve the sale's existing deviation
(allocation and reversal shift balance and paid by the same amount, and
cancellation leaves all three fields untouched), so after those
operations a balance within epsilon of zero need not be exactly 0. -/
theorem C3_balance_invariant :
    (∀ (st : Store) (inp : SaleInput) (saleId : Nat) (st' : Store) (sale : Sale),
      createSale st inp saleId = Except.ok (st', sale) →
      sale.balance =
        (if jsAbs (sale.total - sale.paid) < 1/100 then 0
         else sale.total - sale.paid) ∧ balConsistent sale) ∧
    (∀ (st : Store) (saleId : Nat) (patch : SalePatch) (st' : Store) (sale : Sale),
      updateSale st saleId patch = Except.ok (st', sale) →
      sale.balance =
        (if jsAbs (sale.total - sale.paid) < 1/100 then 0
         else sale.total - sale.paid) ∧ balConsistent sale) ∧
    (∀ (st : Store) (a : Alloc) (s : Sale),
      lookupSale st a.sale = some s → 0 < s.balance → balConsistent s →
      ∀ (st₁ : Store) (r : Alloc), allocStep st a = Except.ok (st₁, r) →
      ∀ s' : Sale, lookupSale st₁ a.sale = some s' →
        balConsistent s' ∧ s'.total = s.total ∧
        s'.paid = s.paid + jsMin a.amount s.balance ∧
        s'.balance = s.balance - jsMin a.amount s.balance) ∧
    (∀ (st : Store) (a : Alloc) (s : Sale),
      lookupSale st a.sale = some s → balConsistent s →
      ∀ s' : Sale, lookupSale (reverseAlloc st a) a.sale = some s' →
        balConsistent s' ∧ s'.total = s.total ∧ s'.paid = s.paid - a.amount ∧
        s'.balance = s.balance + a.amount) ∧
    (∀ (st : Store) (a : Alloc) (s : Sale),
      lookupSale st a.sale = some s → balConsistent s →
      ∀ (st₁ : Store) (r : Alloc), applyNewAlloc st a = Except.ok (st₁, r) →
      ∀ s' : Sale, lookupSale st₁ a.sale = some s' →
        balConsistent s' ∧ s'.total = s.total ∧ s'.paid = s.paid + a.amount ∧
        s'.balance = s.balance - a.amount) ∧
    (∀ (st : Store) (saleId : Nat) (s : Sale),
      lookupSale st saleId = some s → balConsistent s →
      ∀ st' : Store, deleteSale st saleId = Except.ok st' →
      ∀ s' : Sale, lookupSale st' saleId = some s' →
        balConsistent s' ∧ s'.total = s.total ∧ s'.paid = s.paid ∧
        s'.balance = s.balance) := by
  refine ⟨?_, ?_, ?_, ?_, ?_, ?_⟩
  · intro st inp saleId st' sale h
    unfold createSale at h
    split at h
    · cases h
    next c hcu =>
      split at h
      · cases h
      next items subtotal hci =>
        simp only [Except.ok.injEq, Prod.mk.injEq] at h
        obtain ⟨-, hsale⟩ := h
        subst hsale
        exact ⟨rfl, snap_balConsistent _ _⟩
  · intro st saleId patch st' sale h
    unfold updateSale at h
    split at h
    · cases h
    next s0 hs0 =>
      split at h
      · cases h
      next hnc =>
        simp only [Except.ok.injEq, Prod.mk.injEq] at h
        obtain ⟨-, hsale⟩ := h
        subst hsale
        exact ⟨rfl, snap_balConsistent _ _⟩
  · intro st a s hs hb hcons st₁ r hrun s' hlook
    rw [allocStep_ok st a s hs hb] at hrun
    simp only [Except.ok.injEq, Prod.mk.injEq] at hrun
    obtain ⟨hst, -⟩ := hrun
    subst hst
    rw [lookupSale_incOutstanding, lookupSale_saveSale_self] at hlook
    obtain rfl := Option.some.inj hlook
    exact ⟨balConsistent_alloc s (jsMin a.amount s.balance) hcons, rfl, rfl, rfl⟩
  · intro st a s hs hcons s' hlook
    unfold reverseAlloc at hlook
    rw [hs] at hlook
    rw [lookupSale_incOutstanding, lookupSale_saveSale_self] at hlook
    obtain rfl := Option.some.inj hlook
    exact ⟨balConsistent_reverse s a.amount hcons, rfl, rfl, rfl⟩
  · intro st a s hs hcons st₁ r hrun s' hlook
    unfold applyNewAlloc at hrun
    rw [hs] at hrun
    simp only [Except.ok.injEq, Prod.mk.injEq] at hrun
    obtain ⟨hst, -⟩ := hrun
    subst hst
    rw [lookupSale_incOutstanding, lookupSale_saveSale_self] at hlook
    obtain rfl := Option.some.inj hlook
    exact ⟨balConsistent_alloc s a.amount hcons, rfl, rfl, rfl⟩
  · intro st saleId s hs hcons st' hrun s' hlook
    unfold deleteSale at hrun
    split at hrun
    · cases hrun
    next sale heq =>
      rw [hs] at heq
      obtain rfl := Option.some.inj heq
      split at hrun
      · cases hrun
      simp only [Except.ok.injEq] at hrun
      subst hrun
      rw [lookupSale_saveSale_self] at hlook
      obtain rfl := Option.some.inj hlook
      exact ⟨hcons, rfl, rfl, rfl⟩

/-- C3 witness: running one allocation of 60 against the open sale of
total 100 in the C7 store yields a stored sale with paid 60 and balance
40, which satisfies the balance invariant. -/
theorem C3_balance_invariant_witness :
    balConsistent ⟨0, [], 100, 0, 0, 100, 60, 40, PaymentStatus.partialPayment,
      SaleStatus.completed⟩ ∧
    (⟨0, [], 100, 0, 0, 100, 60, 40, PaymentStatus.partialPayment,
      SaleStatus.completed⟩ : Sale).balance = 100 - jsMin 60 100 := by
  have hrun : allocStep c7Store ⟨1, 60⟩ = Except.ok
      (⟨[(1, ⟨0, [], 100, 0, 0, 100, 60, 40, PaymentStatus.partialPayment,
          SaleStatus.completed⟩)], [(0, ⟨80, 100⟩)], [], []⟩, ⟨1, 60⟩) := by
    norm_num [allocStep, appliedSale, c7Store, c7Sale, lookupSale, lookupList,
      jsMin, paymentStatusOf, jsAbs, saveSale, applySaveHook, setEntry, adjustEntry,
      incOutstanding, bumpOutstanding]
  have h := C3_balance_invariant.2.2.1 c7Store ⟨1, 60⟩ c7Sale rfl
    (by norm_num [c7Sale]) (by norm_num [balConsistent, c7Sale, jsAbs]) _ _ hrun
    ⟨0, [], 100, 0, 0, 100, 60, 40, PaymentStatus.partialPayment,
      SaleStatus.completed⟩ rfl
  refine ⟨h.1, ?_⟩
  rw [show (⟨0, [], 100, 0, 0, 100, 60, 40, PaymentStatus.partialPayment,
    SaleStatus.completed⟩ : Sale).balance = (40 : ℚ) from rfl]
  norm_num [jsMin]

/-! Claims C4 and C5: updatePayment. -/

@[simp] theorem reversedSale_customer (s : Sale) (d : ℚ) :
    (reversedSale s d).customer = s.customer := rfl

@[simp] theorem reversedSale_balance (s : Sale) (d : ℚ) :
    (reversedSale s d).balance = s.balance + d := rfl

@[simp] theorem reversedSale_paid (s : Sale) (d : ℚ) :
    (reversedSale s d).paid = s.paid - d := rfl

@[simp] theorem reversedSale_status (s : Sale) (d : ℚ) :
    (reversedSale s d).status = s.status := rfl

@[simp] theorem appliedSale_customer (s : Sale) (d : ℚ) :
    (appliedSale s d).customer = s.customer := rfl

@[simp] theorem appliedSale_balance (s : Sale) (d : ℚ) :
    (appliedSale s d).balance = s.balance - d := rfl

@[simp] theorem appliedSale_paid (s : Sale) (d : ℚ) :
    (appliedSale s d).paid = s.paid + d := rfl

@[simp] theorem appliedSale_status (s : Sale) (d : ℚ) :
    (appliedSale s d).status = s.status := rfl

theorem applyNewAlloc_notFound (st : Store) (a : Alloc)
    (h : lookupSale st a.sale = none) :
    applyNewAlloc st a = Except.error ApiError.notFound := by
  unfold applyNewAlloc
  simp only [h]

theorem applyNewAlloc_ok (st : Store) (a : Alloc) (s : Sale)
    (h : lookupSale st a.sale = some s) :
    applyNewAlloc st a = Except.ok
      (incOutstanding (saveSale st a.sale (appliedSale s a.amount)) s.customer
        ((s.balance - a.amount) - s.balance), ⟨a.sale, a.amount⟩) := by
  unfold applyNewAlloc
  simp only [h]
  rfl

theorem reverseAlloc_eq (st : Store) (a : Alloc) (s : Sale)
    (h : lookupSale st a.sale = some s) :
    reverseAlloc st a =
      incOutstanding (saveSale st a.sale (reversedSale s a.amount)) s.customer
        ((s.balance + a.amount) - s.balance) := by
  unfold reverseAlloc
  simp only [h]
  rfl

theorem applyNewAllocs_verbatim (allocs : List Alloc) :
    ∀ (st st' : Store) (rec : List Alloc) (tot : ℚ),
      applyNewAllocs st allocs = Except.ok (st', rec, tot) →
      rec = allocs ∧ tot = (allocs.map Alloc.amount).sum := by
  induction allocs with
  | nil =>
    intro st st' rec tot h
    unfold applyNewAllocs at h
    simp only [Except.ok.injEq, Prod.mk.injEq] at h
    obtain ⟨-, hrec, htot⟩ := h
    exact ⟨hrec.symm, htot.symm⟩
  | cons a rest ih =>
    intro st st' rec tot h
    unfold applyNewAllocs at h
    split at h
    · cases h
    next st1 r hstep =>
      split at h
      · cases h
      next st2 rs tot0 hrest =>
        simp only [Except.ok.injEq, Prod.mk.injEq] at h
        obtain ⟨-, hrec, htot⟩ := h
        obtain ⟨hrs, htot0⟩ := ih st1 st2 rs tot0 hrest
        have hra : r = a := by
          unfold applyNewAlloc at hstep
          split at hstep
          · cases hstep
          next s hs =>
            simp only [Except.ok.injEq, Prod.mk.injEq] at hstep
            obtain ⟨-, hr⟩ := hstep
            exact hr.symm
        constructor
        · rw [← hrec, hra, hrs]
        · rw [← htot, hra, htot0]
          simp

/-- C4 counterexample: requesting 50 against a sale whose balance is
only 30 through Payment.Update applies and records the full 50 — the
sale's paid becomes 120, its balance −20 (overpaid) — whereas Create's
procedure would clamp to min(50, 30) = 30; and against a fully settled
sale (balance 0) Payment.Update succeeds where Payment.Create fails
InvalidState. -/
theorem C4_counterexample :
    (updatePayment c4Store 7 none [⟨1, 50⟩]).toOption.map
        (fun r => (r.2.sales, r.2.totalAllocated,
          (lookupSale r.1 1).map (fun s => (s.paid, s.balance, s.paymentStatus)))) =
      some ([⟨1, 50⟩], 50, some (120, -20, PaymentStatus.overpaid)) ∧
    jsMin 50 30 = 30 ∧ ¬ (50 : ℚ) = 30 ∧
    (updatePayment c4ZeroStore 7 none [⟨1, 10⟩]).toOption.map
        (fun r => r.2.sales) = some [⟨1, 10⟩] ∧
    createPayment c4ZeroStore 0 10 [⟨1, 10⟩] 8 =
      Except.error ApiError.invalidState := by
  refine ⟨?_, by norm_num [jsMin], by norm_num, ?_, ?_⟩
  · norm_num [updatePayment, reverseAllocs, reverseAlloc, reversedSale,
      applyNewAllocs, applyNewAlloc, appliedSale, c4Store, c4Sale, lookupPayment,
      lookupSale, lookupList, paymentStatusOf, jsAbs, saveSale, applySaveHook,
      setEntry, adjustEntry, incOutstanding, bumpOutstanding, Except.toOption]
  · norm_num [updatePayment, reverseAllocs, reverseAlloc, reversedSale,
      applyNewAllocs, applyNewAlloc, appliedSale, c4ZeroStore, lookupPayment,
      lookupSale, lookupList, paymentStatusOf, jsAbs, saveSale, applySaveHook,
      setEntry, adjustEntry, incOutstanding, bumpOutstanding, Except.toOption]
  · norm_num [createPayment, processAllocs, allocStep, c4ZeroStore, lookupCustomer,
      lookupSale, lookupList]

/-- C4 (amended): Payment.Update reverses every existing allocation and
then reapplies the new list, but the reapply phase does not re-run
Create's steps 2–3: each new allocation still fails NotFound when its
sale is missing, but there is no InvalidState check on a non-positive
balance and no clamping — the full requested amount is applied and
recorded verbatim — and totalAllocated is rebuilt from zero as the sum
of the requested (not clamped) amounts. -/
theorem C4_update_reapplies_verbatim :
    (∀ (st : Store) (a : Alloc), lookupSale st a.sale = none →
      applyNewAlloc st a = Except.error ApiError.notFound) ∧
    (∀ (st : Store) (a : Alloc) (s : Sale), lookupSale st a.sale = some s →
      applyNewAlloc st a = Except.ok
        (incOutstanding (saveSale st a.sale (appliedSale s a.amount)) s.customer
          ((s.balance - a.amount) - s.balance), ⟨a.sale, a.amount⟩)) ∧
    (∀ (st : Store) (allocs : List Alloc) (st' : Store) (rec : List Alloc) (tot : ℚ),
      applyNewAllocs st allocs = Except.ok (st', rec, tot) →
      rec = allocs ∧ tot = (allocs.map Alloc.amount).sum) ∧
    (∀ (st : Store) (payId : Nat) (newAmount : Option ℚ) (newAllocs : List Alloc)
      (st' : Store) (pay' : Payment) (payOld : Payment),
      lookupPayment st payId = some payOld →
      updatePayment st payId newAmount newAllocs = Except.ok (st', pay') →
      pay'.sales = newAllocs ∧
      pay'.totalAllocated = (newAllocs.map Alloc.amount).sum ∧
      lookupPayment st' payId = some pay') := by
  refine ⟨applyNewAlloc_notFound, applyNewAlloc_ok, ?_, ?_⟩
  · intro st allocs st' rec tot h
    exact applyNewAllocs_verbatim allocs st st' rec tot h
  · intro st payId newAmount newAllocs st' pay' payOld hp h
    unfold updatePayment at h
    split at h
    · cases h
    next payment hpm =>
      rw [hp] at hpm
      obtain rfl := Option.some.inj hpm
      simp only [] at h
      split at h
      · cases h
      next st2 recorded totalAllocated hrun =>
        simp only [Except.ok.injEq, Prod.mk.injEq] at h
        obtain ⟨hst, hpay⟩ := h
        subst hpay
        obtain ⟨hrec, htot⟩ := applyNewAllocs_verbatim newAllocs _ st2 recorded
          totalAllocated hrun
        subst hrec
        refine ⟨rfl, htot, ?_⟩
        subst hst
        exact lookupList_setEntry_self _ _ _

/-- C4 witness: updating the stored payment of 100 with the new list
[(sale 1, 50)] stores recorded sales = the requested list and
totalAllocated = 50, the sum of requested amounts. -/
theorem C4_update_reapplies_verbatim_witness :
    (⟨0, 100, [⟨1, 50⟩], 50⟩ : Payment).sales = [⟨1, 50⟩] ∧
    (⟨0, 100, [⟨1, 50⟩], 50⟩ : Payment).totalAllocated =
      (([⟨1, 50⟩] : List Alloc).map Alloc.amount).sum ∧
    lookupPayment c4Result 7 = some ⟨0, 100, [⟨1, 50⟩], 50⟩ := by
  have heval : updatePayment c4Store 7 none [⟨1, 50⟩] =
      Except.ok (c4Result, ⟨0, 100, [⟨1, 50⟩], 50⟩) := by
    norm_num [updatePayment, reverseAllocs, reverseAlloc, reversedSale,
      applyNewAllocs, applyNewAlloc, appliedSale, c4Store, c4Sale, c4Result,
      lookupPayment, lookupSale, lookupList, paymentStatusOf, jsAbs, saveSale,
      applySaveHook, setEntry, adjustEntry, incOutstanding, bumpOutstanding]
  exact C4_update_reapplies_verbatim.2.2.2 c4Store 7 none [⟨1, 50⟩] c4Result
    ⟨0, 100, [⟨1, 50⟩], 50⟩ ⟨0, 100, [], 0⟩ rfl heval

theorem lookupSale_setPayments (st : Store) (l : List (Nat × Payment)) (k : Nat) :
    lookupSale { st with payments := l } k = lookupSale st k := rfl

theorem lookupCustomer_setPayments (st : Store) (l : List (Nat × Payment)) (k : Nat) :
    lookupCustomer { st with payments := l } k = lookupCustomer st k := rfl

theorem lookupCustomer_saveSale_hook_key (st : Store) (k : Nat) (s : Sale)
    (ckey : Nat) (hc : s.status = SaleStatus.completed) (hb : 0 < s.balance)
    (hk : ckey = s.customer) :
    lookupCustomer (saveSale st k s) ckey =
      (lookupCustomer st ckey).map (bumpOutstanding s.balance) := by
  subst hk
  exact lookupCustomer_saveSale_hook st k s hc hb

theorem applied_reversed_cancel (s : Sale) (a : ℚ)
    (hst : s.paymentStatus = paymentStatusOf s.balance s.paid) :
    appliedSale (reversedSale s a) a = s := by
  simp only [appliedSale, reversedSale]
  rw [show s.paid - a + a = s.paid from by ring,
    show s.balance + a - a = s.balance from by ring, ← hst]

/-- C5 counterexample: updating the stored payment of 600 with the exact
same allocation list [(sale 1, 600)] restores the sale to its original
paid 600 / balance 400 / partial status, but the customer's stored
outstandingAmount jumps from 400 to 1800: the reversal save fires the
hook for +1000 and the reapply save for +400 while the two explicit
deltas (+600, −600) cancel. -/
theorem C5_counterexample :
    (updatePayment c5Store 7 none [⟨1, 600⟩]).toOption.map
        (fun r => (lookupSale r.1 1, lookupCustomer r.1 0, r.2.sales)) =
      some (some c5Sale, some ⟨1800, 1000⟩, [⟨1, 600⟩]) ∧
    ¬ (1800 : ℚ) = 400 := by
  refine ⟨?_, by norm_num⟩
  norm_num [updatePayment, reverseAllocs, reverseAlloc, reversedSale, applyNewAllocs,
    applyNewAlloc, appliedSale, c5Store, c5Sale, lookupPayment, lookupSale,
    lookupCustomer, lookupList, paymentStatusOf, jsAbs, saveSale, applySaveHook,
    setEntry, adjustEntry, incOutstanding, bumpOutstanding, Except.toOption]

/-- C5 (amended): updating a Payment with the exact same single-entry
allocation list leaves the affected Sale's paid, balance and
paymentStatus — indeed the whole Sale document — unchanged, and keeps
the payment's amount and allocation list, but the customer's stored
outstandingAmount is NOT preserved: for a completed sale the reversal
save and the reapply save each fire the post('save') hook, leaving the
stored outstanding at its old value plus (balance + amount) plus
balance, while the two explicit deltas cancel. -/
theorem C5_same_list_update (st : Store) (payId : Nat) (pay : Payment) (sid : Nat)
    (a : ℚ) (s : Sale) (c : Customer)
    (hp : lookupPayment st payId = some pay)
    (hps : pay.sales = [⟨sid, a⟩])
    (hs : lookupSale st sid = some s)
    (hst : s.paymentStatus = paymentStatusOf s.balance s.paid)
    (hc : lookupCustomer st s.customer = some c)
    (hcomp : s.status = SaleStatus.completed)
    (hb : 0 < s.balance) (hba : 0 < s.balance + a) :
    ∃ (st' : Store) (pay' : Payment),
      updatePayment st payId none [⟨sid, a⟩] = Except.ok (st', pay') ∧
      lookupSale st' sid = some s ∧
      lookupCustomer st' s.customer =
        some ⟨c.outstandingAmount + (s.balance + a) + s.balance, c.totalPurchase⟩ ∧
      pay'.sales = [⟨sid, a⟩] ∧ pay'.amount = pay.amount := by
  have hrev : reverseAllocs st [⟨sid, a⟩] =
      incOutstanding (saveSale st sid (reversedSale s a)) s.customer
        ((s.balance + a) - s.balance) := by
    rw [reverseAllocs, reverseAllocs, reverseAlloc_eq st ⟨sid, a⟩ s hs]
  have hlook1 : lookupSale
      (incOutstanding (saveSale st sid (reversedSale s a)) s.customer
        ((s.balance + a) - s.balance)) sid = some (reversedSale s a) := by
    rw [lookupSale_incOutstanding, lookupSale_saveSale_self]
  have happ := applyNewAlloc_ok
    (incOutstanding (saveSale st sid (reversedSale s a)) s.customer
      ((s.balance + a) - s.balance)) ⟨sid, a⟩ (reversedSale s a) hlook1
  simp only [reversedSale_customer, reversedSale_balance] at happ
  have happs : applyNewAllocs
      (incOutstanding (saveSale st sid (reversedSale s a)) s.customer
        ((s.balance + a) - s.balance)) [⟨sid, a⟩] = Except.ok
      (incOutstanding
        (saveSale (incOutstanding (saveSale st sid (reversedSale s a)) s.customer
          ((s.balance + a) - s.balance)) sid (appliedSale (reversedSale s a) a))
        s.customer ((s.balance + a - a) - (s.balance + a)),
       [⟨sid, a⟩], a + 0) := by
    simp only [applyNewAllocs, happ]
  refine ⟨{ (incOutstanding
      (saveSale (incOutstanding (saveSale st sid (reversedSale s a)) s.customer
        ((s.balance + a) - s.balance)) sid (appliedSale (reversedSale s a) a))
      s.customer ((s.balance + a - a) - (s.balance + a))) with
      payments := setEntry (incOutstanding
        (saveSale (incOutstanding (saveSale st sid (reversedSale s a)) s.customer
          ((s.balance + a) - s.balance)) sid (appliedSale (reversedSale s a) a))
        s.customer ((s.balance + a - a) - (s.balance + a))).payments payId
        { pay with amount := pay.amount, sales := [⟨sid, a⟩],
                   totalAllocated := a + 0 } },
    { pay with amount := pay.amount, sales := [⟨sid, a⟩], totalAllocated := a + 0 },
    ?_, ?_, ?_, rfl, rfl⟩
  · unfold updatePayment
    simp only [hp]
    rw [hps, hrev]
    simp only [Option.getD_none, happs]
  · rw [lookupSale_setPayments, lookupSale_incOutstanding, lookupSale_saveSale_self,
      applied_reversed_cancel s a hst]
  · rw [lookupCustomer_setPayments, lookupCustomer_incOutstanding_self,
      lookupCustomer_saveSale_hook_key _ _ (appliedSale (reversedSale s a) a)
        s.customer
        (by simp only [appliedSale_status, reversedSale_status]; exact hcomp)
        (by simp only [appliedSale_balance, reversedSale_balance]; linarith)
        (by simp only [appliedSale_customer, reversedSale_customer]),
      lookupCustomer_incOutstanding_self,
      lookupCustomer_saveSale_hook_key _ _ (reversedSale s a) s.customer
        (by simp only [reversedSale_status]; exact hcomp)
        (by simp only [reversedSale_balance]; linarith)
        (by simp only [reversedSale_customer]),
      hc]
    simp only [Option.map_some', Option.some.injEq, bumpOutstanding,
      appliedSale_balance, reversedSale_balance, Customer.mk.injEq]
    constructor
    · ring
    · trivial

/-- C5 witness: on the concrete 600-against-(total 1000, balance 400)
payment, the same-list update leaves the sale's paid at 600 and balance
at 400 while the stored customer outstanding ends at 1800. -/
theorem C5_same_list_update_witness :
    (updatePayment c5Store 7 none [⟨1, 600⟩]).toOption.map
        (fun r => ((lookupSale r.1 1).map Sale.paid,
          (lookupSale r.1 1).map Sale.balance,
          (lookupCustomer r.1 c5Sale.customer).map Customer.outstandingAmount)) =
      some (some 600, some 400, some 1800) := by
  obtain ⟨st', pay', hok, hsale, hcust, -, -⟩ :=
    C5_same_list_update c5Store 7 ⟨0, 600, [⟨1, 600⟩], 600⟩ 1 600 c5Sale ⟨400, 1000⟩
      rfl rfl rfl (by norm_num [c5Sale, paymentStatusOf, jsAbs]) rfl rfl
      (by norm_num [c5Sale]) (by norm_num [c5Sale])
  rw [hok]
  show some ((lookupSale st' 1).map Sale.paid, (lookupSale st' 1).map Sale.balance,
    (lookupCustomer st' c5Sale.customer).map Customer.outstandingAmount) = _
  rw [hsale, hcust]
  simp only [Option.map_some', Option.some.injEq, Prod.mk.injEq]
  norm_num [c5Sale]

end InventoryBackend
